import Mathlib

/-!
Verification of the openclaw-self-healing plugin against its natural-language
specification.  The definitions below are a shallow embedding of the latest
implementation found in the repository (the second file of
src/unnamed/part_000): pure functions are translated to Lean functions,
file-system and shell side effects become explicit traces, time (nowSec)
becomes an explicit parameter, loadState operates on an untyped JSON value
(so ill-typed state files are expressible), and the rest of the plugin
operates on the well-typed state view.  Where the repository ships only
tests for a feature (recovery probing, dry-run) the definitions are modelled
from the specification and are marked as such in their doc comments.
-/

set_option autoImplicit false
set_option maxRecDepth 8000
set_option linter.unnecessarySeqFocus false

namespace OpenclawSelfHeal

/-! ## Association lists: the embedding of a JS Record<string, T> -/

/-- Lookup of a key in an association list, the embedding of reading
obj[k] on a JS object with string keys. -/
def lookupKey {β : Type} (k : String) : List (String × β) → Option β
  | [] => none
  | (k₂, v) :: rest => if k₂ = k then some v else lookupKey k rest

/-- Lookup with a default value, the embedding of `obj[k] ?? d`. -/
def lookupKeyD {β : Type} (k : String) (l : List (String × β)) (d : β) : β :=
  (lookupKey k l).getD d

/-- Insertion or overwrite of a key, the embedding of the assignment
obj[k] = v on a JS object (an existing key keeps its position). -/
def insertKey {β : Type} (k : String) (v : β) : List (String × β) → List (String × β)
  | [] => [(k, v)]
  | (k₂, w) :: rest => if k₂ = k then (k, v) :: rest else (k₂, w) :: insertKey k v rest

/-! ## Data model (src/unnamed/part_000, type State and friends) -/

/-- Per-model cooldown record.  `lastProbeAt` is the optional field used by the
recovery-probe scheduler (spec §3); the two handlers in the source never set it. -/
structure CooldownEntry where
  lastHitAt : Nat
  nextAvailableAt : Nat
  reason : Option String := none
  lastProbeAt : Option Nat := none
deriving DecidableEq

/-- The whatsapp sub-record of the persisted state. -/
structure WhatsappHealth where
  lastSeenConnectedAt : Option Nat := none
  lastRestartAt : Option Nat := none
  disconnectStreak : Option Nat := none
deriving DecidableEq

/-- The cron sub-record of the persisted state. -/
structure CronHealth where
  failCounts : List (String × Nat) := []
  lastIssueCreatedAt : List (String × Nat) := []
deriving DecidableEq

/-- The plugins sub-record of the persisted state. -/
structure PluginsHealth where
  lastDisableAt : List (String × Nat) := []
deriving DecidableEq

/-- A pending configuration backup (filePath -> meta). -/
structure PendingBackup where
  createdAt : Nat
  reason : String
deriving DecidableEq

/-- The aggregate persisted state as the handlers and the monitor tick
operate on it: a well-typed view of a state file whose sub-maps have all
been back-filled. -/
structure State where
  limited : List (String × CooldownEntry) := []
  pendingBackups : List (String × PendingBackup) := []
  whatsapp : WhatsappHealth := {}
  cron : CronHealth := {}
  plugins : PluginsHealth := {}
deriving DecidableEq

/-! ## State store (loadState / saveState)

The state file is read with JSON.parse, so loadState operates on an untyped
JSON value: its `if (!d.x) d.x = ...` back-fills test truthiness, pass every
truthy value through unchanged (even an ill-typed one such as a number), and
— the module being strict-mode — a property assignment on a primitive throws
a TypeError that the surrounding try/catch turns into the all-empty default.
The embedding therefore models JSON values and property access directly. -/

/-- A JSON value as produced by JSON.parse.  An array carries, besides its
elements, the named (non-index) properties later property assignments may
attach to it; JSON.parse itself always produces arrays with no such
properties. -/
inductive Json where
  | null
  | bool (b : Bool)
  | num (n : Int)
  | str (s : String)
  | arr (elems : List Json) (props : List (String × Json))
  | obj (fields : List (String × Json))

/-- JS truthiness of a JSON value. -/
def jsonTruthy : Json → Bool
  | Json.null => false
  | Json.bool b => b
  | Json.num n => n != 0
  | Json.str s => s != ""
  | Json.arr _ _ => true
  | Json.obj _ => true

/-- Is the value a primitive (or null), i.e. one that strict mode refuses to
assign properties to? -/
def jsonPrim : Json → Bool
  | Json.null => true
  | Json.bool _ => true
  | Json.num _ => true
  | Json.str _ => true
  | _ => false

/-- Is the value an object literal? -/
def isObj : Json → Bool
  | Json.obj _ => true
  | _ => false

/-- Reading `d[k]`: throws on null, finds the field on an object (or a named
property on an array), and yields undefined (`none`) on a primitive, whose
boxed object has none of the keys loadState uses. -/
def getProp : Json → String → Except Unit (Option Json)
  | Json.null, _ => Except.error ()
  | Json.obj fields, k => Except.ok (lookupKey k fields)
  | Json.arr _ props, k => Except.ok (lookupKey k props)
  | _, _ => Except.ok none

/-- Writing `d[k] = v`: succeeds on objects and arrays (named property),
throws a strict-mode TypeError on null and primitives. -/
def setProp : Json → String → Json → Except Unit Json
  | Json.obj fields, k, v => Except.ok (Json.obj (insertKey k v fields))
  | Json.arr elems props, k, v => Except.ok (Json.arr elems (insertKey k v props))
  | _, _, _ => Except.error ()

/-- One back-fill statement `if (!d[k]) d[k] = {}`: a truthy value is kept,
an absent or falsy one is overwritten with an empty object. -/
def backfillProp (d : Json) (k : String) : Except Unit Json :=
  match getProp d k with
  | Except.error e => Except.error e
  | Except.ok (some j) =>
      if jsonTruthy j then Except.ok d else setProp d k (Json.obj [])
  | Except.ok none => setProp d k (Json.obj [])

/-- One nested back-fill statement `if (!d[outer][inner]) d[outer][inner] = {}`:
reading `.inner` of undefined throws; the inner assignment mutates the object
stored at `outer` (modelled by writing the updated value back), and throws
when that value is null or a primitive. -/
def backfillNested (d : Json) (outer inner : String) : Except Unit Json :=
  match getProp d outer with
  | Except.error e => Except.error e
  | Except.ok none => Except.error ()
  | Except.ok (some c) =>
      match getProp c inner with
      | Except.error e => Except.error e
      | Except.ok (some j) =>
          if jsonTruthy j then Except.ok d
          else
            match setProp c inner (Json.obj []) with
            | Except.error e => Except.error e
            | Except.ok c₂ => setProp d outer c₂
      | Except.ok none =>
          match setProp c inner (Json.obj []) with
          | Except.error e => Except.error e
          | Except.ok c₂ => setProp d outer c₂

/-- Error-propagating sequencing of the back-fill statements. -/
def exThen (x : Except Unit Json) (f : Json → Except Unit Json) : Except Unit Json :=
  match x with
  | Except.error e => Except.error e
  | Except.ok d => f d

/-- The body of loadState after JSON.parse succeeded: the eight back-fill
statements of src/unnamed/part_000 lines 428-435, in source order; an error
stands for a TypeError reaching the catch. -/
def backfillState (d : Json) : Except Unit Json :=
  exThen (backfillProp d "limited") fun d₁ =>
  exThen (backfillProp d₁ "pendingBackups") fun d₂ =>
  exThen (backfillProp d₂ "whatsapp") fun d₃ =>
  exThen (backfillProp d₃ "cron") fun d₄ =>
  exThen (backfillNested d₄ "cron" "failCounts") fun d₅ =>
  exThen (backfillNested d₅ "cron" "lastIssueCreatedAt") fun d₆ =>
  exThen (backfillProp d₆ "plugins") fun d₇ =>
  backfillNested d₇ "plugins" "lastDisableAt"

/-- The literal returned by loadState's catch branch. -/
def defaultStateJson : Json :=
  Json.obj
    [("limited", Json.obj []), ("pendingBackups", Json.obj []), ("whatsapp", Json.obj []),
      ("cron", Json.obj [("failCounts", Json.obj []), ("lastIssueCreatedAt", Json.obj [])]),
      ("plugins", Json.obj [("lastDisableAt", Json.obj [])])]

/-- Embedding of loadState (src/unnamed/part_000 lines 424-440).  The `none`
input stands for a missing file or a JSON.parse failure; a TypeError raised
by a back-fill statement is caught by the same try/catch.  The function is
total: the caller never sees an exception. -/
def loadState : Option Json → Json
  | none => defaultStateJson
  | some d =>
      match backfillState d with
      | Except.ok d₂ => d₂
      | Except.error _ => defaultStateJson

/-- The back-fill result on a plain field list: a truthy value at `k` is
kept, an absent or falsy one is replaced by an empty object. -/
def backfillFields (fields : List (String × Json)) (k : String) : List (String × Json) :=
  match lookupKey k fields with
  | some v => if jsonTruthy v then fields else insertKey k (Json.obj []) fields
  | none => insertKey k (Json.obj []) fields

/-- Does the field list hold a truthy value at `k`? -/
def truthyAt (fields : List (String × Json)) (k : String) : Bool :=
  match lookupKey k fields with
  | some v => jsonTruthy v
  | none => false

/-- The field at `k`, when present and truthy, is an object — the condition
under which the nested back-fill of that field cannot throw. -/
def objSafeAt (fields : List (String × Json)) (k : String) : Bool :=
  match lookupKey k fields with
  | some v => !jsonTruthy v || isObj v
  | none => true

/-- Neither the cron nor the plugins field is a truthy non-object, so no
back-fill statement throws on this parsed object. -/
def cronPluginsSafe (fields : List (String × Json)) : Bool :=
  objSafeAt fields "cron" && objSafeAt fields "plugins"

/-- Embedding of path.dirname for POSIX paths: everything before the last
slash, "." when there is no slash, "/" when the last slash is leading. -/
def dirname (p : String) : String :=
  let cs := p.data
  match cs.reverse.findIdx? (fun c => c = '/') with
  | none => "."
  | some i =>
      let k := cs.length - 1 - i
      if k = 0 then "/" else String.mk (cs.take k)

/-- A file-system operation performed by saveState.  The write operation
carries the full State being serialized, so the trace records that the whole
state goes through a single write call. -/
inductive FsOp where
  | mkdirp (dir : String)
  | writeFile (path : String) (content : State)
  | rename (src dst : String)
deriving DecidableEq

/-- Embedding of saveState (src/unnamed/part_000 lines 442-445) as the trace
of file-system operations it performs: fs.mkdirSync(path.dirname(p)) followed
by a direct fs.writeFileSync(p, JSON.stringify(s)). -/
def saveState (p : String) (s : State) : List FsOp :=
  [FsOp.mkdirp (dirname p), FsOp.writeFile p s]

/-- The write-then-rename pattern the spec calls "atomically enough": the
target path is never written directly and the trace renames some other path
onto the target. -/
def atomicReplacePattern (target : String) (ops : List FsOp) : Bool :=
  ops.all (fun op =>
    match op with
    | FsOp.writeFile q _ => q != target
    | _ => true)
  && ops.any (fun op =>
    match op with
    | FsOp.rename _ dst => dst == target
    | _ => false)

/-! ## Failure classifiers -/

/-- Character-list prefix test, a helper for the substring search. -/
def charsPrefix : List Char → List Char → Bool
  | [], _ => true
  | _ :: _, [] => false
  | a :: as, b :: bs => a = b && charsPrefix as bs

/-- Character-list substring search: does `needle` occur contiguously in the
second list? -/
def charsInfix (needle : List Char) : List Char → Bool
  | [] => needle.isEmpty
  | b :: bs => charsPrefix needle (b :: bs) || charsInfix needle bs

/-- JS `s.includes(sub)`. -/
def strIncludes (s sub : String) : Bool :=
  charsInfix sub.data s.data

/-- JS `s.toLowerCase()` on the characters of the string (the markers the
classifiers search for are plain ASCII). -/
def strLower (s : String) : String :=
  String.mk (s.data.map Char.toLower)

/-- Embedding of isRateLimitLike (src/unnamed/part_000 lines 447-451); the
`none` input stands for an absent error string, and the empty string is
rejected by the same truthiness check `if (!err)`. -/
def isRateLimitLike : Option String → Bool
  | none => false
  | some err =>
      if err = "" then false
      else
        let s := strLower err
        strIncludes s "rate limit" || strIncludes s "quota" || strIncludes s "429" ||
          strIncludes s "resource_exhausted"

/-- Embedding of isAuthScopeLike (src/unnamed/part_000 lines 453-463). -/
def isAuthScopeLike : Option String → Bool
  | none => false
  | some err =>
      if err = "" then false
      else
        let s := strLower err
        strIncludes s "http 401" || strIncludes s "insufficient permissions" ||
          strIncludes s "missing scopes" || strIncludes s "api.responses.write" ||
          strIncludes s "unauthorized"

/-! ## Cooldown and fallback selector -/

/-- A model is usable now: no cooldown entry, or its cooldown has elapsed. -/
def availableB (t : Nat) (limited : List (String × CooldownEntry)) (m : String) : Bool :=
  match lookupKey m limited with
  | none => true
  | some lim => lim.nextAvailableAt ≤ t

/-- The for-loop of pickFallback: the first model with no entry or an elapsed
entry, `none` when the loop falls through. -/
def pickFallbackLoop (t : Nat) (limited : List (String × CooldownEntry)) :
    List String → Option String
  | [] => none
  | m :: rest =>
      match lookupKey m limited with
      | none => some m
      | some lim =>
          if lim.nextAvailableAt ≤ t then some m else pickFallbackLoop t limited rest

/-- Embedding of pickFallback (src/unnamed/part_000 lines 465-473); `t` is the
value of nowSec() read at entry.  The fall-through return of
`modelOrder[modelOrder.length - 1]` becomes getLast?, which is `none` exactly
when the JS expression is undefined (empty list). -/
def pickFallback (t : Nat) (modelOrder : List String) (state : State) : Option String :=
  match pickFallbackLoop t state.limited modelOrder with
  | some m => some m
  | none => modelOrder.getLast?

/-! ## Config manager -/

/-- The autoFix block of the raw plugin configuration; absent fields are none. -/
structure RawAutoFix where
  patchSessionPins : Option Bool := none
  disableFailingCrons : Option Bool := none
  disableFailingPlugins : Option Bool := none
  restartWhatsappOnDisconnect : Option Bool := none
  whatsappDisconnectThreshold : Option Nat := none
  whatsappMinRestartIntervalSec : Option Nat := none
  cronFailThreshold : Option Nat := none
  issueCooldownSec : Option Nat := none
  pluginDisableCooldownSec : Option Nat := none
deriving DecidableEq

/-- The raw plugin configuration as handed over by the host (api.pluginConfig). -/
structure RawConfig where
  enabled : Option Bool := none
  modelOrder : Option (List String) := none
  cooldownMinutes : Option Nat := none
  stateFile : Option String := none
  sessionsFile : Option String := none
  configFile : Option String := none
  configBackupsDir : Option String := none
  autoFix : Option RawAutoFix := none
deriving DecidableEq

/-- The normalized configuration (type PluginConfig in the source). -/
structure PluginConfig where
  modelOrder : List String
  cooldownMinutes : Nat
  stateFile : String
  sessionsFile : String
  configFile : String
  configBackupsDir : String
  patchPins : Bool
  disableFailingCrons : Bool
  disableFailingPlugins : Bool
  whatsappRestartEnabled : Bool
  whatsappDisconnectThreshold : Nat
  whatsappMinRestartIntervalSec : Nat
  cronFailThreshold : Nat
  issueCooldownSec : Nat
  pluginDisableCooldownSec : Nat
deriving DecidableEq

/-- Embedding of expandHome (src/unnamed/part_000 lines 336-341); `home` is
the value of os.homedir(). -/
def expandHome (home p : String) : String :=
  if p = "" then p
  else if p = "~" then home
  else if p.startsWith "~/" then home ++ "/" ++ p.drop 2
  else p

/-- The DEFAULT_MODEL_ORDER constant of the source. -/
def DEFAULT_MODEL_ORDER : List String :=
  ["anthropic/claude-opus-4-6", "openai-codex/gpt-5.2", "google-gemini-cli/gemini-2.5-flash"]

/-- Embedding of parseConfig (src/unnamed/part_000 lines 384-404).  The `none`
input stands for `raw ?? {}` receiving undefined; `cfg.modelOrder?.length ?`
keeps a provided list only when it is non-empty. -/
def parseConfig (home : String) (raw : Option RawConfig) : PluginConfig :=
  let cfg := raw.getD {}
  let autoFix := cfg.autoFix.getD {}
  { modelOrder :=
      match cfg.modelOrder with
      | some l => if l.isEmpty then DEFAULT_MODEL_ORDER else l
      | none => DEFAULT_MODEL_ORDER
    cooldownMinutes := cfg.cooldownMinutes.getD 300
    stateFile := expandHome home (cfg.stateFile.getD "~/.openclaw/workspace/memory/self-heal-state.json")
    sessionsFile := expandHome home (cfg.sessionsFile.getD "~/.openclaw/agents/main/sessions/sessions.json")
    configFile := expandHome home (cfg.configFile.getD "~/.openclaw/openclaw.json")
    configBackupsDir := expandHome home (cfg.configBackupsDir.getD "~/.openclaw/backups/openclaw.json")
    patchPins := autoFix.patchSessionPins != some false
    disableFailingCrons := autoFix.disableFailingCrons == some true
    disableFailingPlugins := autoFix.disableFailingPlugins == some true
    whatsappRestartEnabled := autoFix.restartWhatsappOnDisconnect != some false
    whatsappDisconnectThreshold := autoFix.whatsappDisconnectThreshold.getD 2
    whatsappMinRestartIntervalSec := autoFix.whatsappMinRestartIntervalSec.getD 300
    cronFailThreshold := autoFix.cronFailThreshold.getD 3
    issueCooldownSec := autoFix.issueCooldownSec.getD (6 * 3600)
    pluginDisableCooldownSec := autoFix.pluginDisableCooldownSec.getD 3600 }

/-- Embedding of configDiff (src/unnamed/part_000 lines 406-418): the changed
field names, in the key order of the object literal built by parseConfig;
list-valued fields compare structurally (JSON.stringify equality). -/
def configDiff (a b : PluginConfig) : List String :=
  (if a.modelOrder = b.modelOrder then [] else ["modelOrder"]) ++
  (if a.cooldownMinutes = b.cooldownMinutes then [] else ["cooldownMinutes"]) ++
  (if a.stateFile = b.stateFile then [] else ["stateFile"]) ++
  (if a.sessionsFile = b.sessionsFile then [] else ["sessionsFile"]) ++
  (if a.configFile = b.configFile then [] else ["configFile"]) ++
  (if a.configBackupsDir = b.configBackupsDir then [] else ["configBackupsDir"]) ++
  (if a.patchPins = b.patchPins then [] else ["patchPins"]) ++
  (if a.disableFailingCrons = b.disableFailingCrons then [] else ["disableFailingCrons"]) ++
  (if a.disableFailingPlugins = b.disableFailingPlugins then [] else ["disableFailingPlugins"]) ++
  (if a.whatsappRestartEnabled = b.whatsappRestartEnabled then [] else ["whatsappRestartEnabled"]) ++
  (if a.whatsappDisconnectThreshold = b.whatsappDisconnectThreshold then [] else ["whatsappDisconnectThreshold"]) ++
  (if a.whatsappMinRestartIntervalSec = b.whatsappMinRestartIntervalSec then [] else ["whatsappMinRestartIntervalSec"]) ++
  (if a.cronFailThreshold = b.cronFailThreshold then [] else ["cronFailThreshold"]) ++
  (if a.issueCooldownSec = b.issueCooldownSec then [] else ["issueCooldownSec"]) ++
  (if a.pluginDisableCooldownSec = b.pluginDisableCooldownSec then [] else ["pluginDisableCooldownSec"])

/-- Result of a reloadConfig call: the configuration in force afterwards, the
boolean return value, and the log lines issued. -/
structure ReloadResult where
  config : PluginConfig
  changed : Bool
  warnings : List String
  infos : List String
deriving DecidableEq

/-- Embedding of reloadConfig (src/unnamed/part_000 lines 596-614).  `current`
is the active configuration, `newRaw` the fresh api.pluginConfig (none when
undefined, absorbed by `?? {}`). -/
def reloadConfig (home : String) (current : PluginConfig) (newRaw : Option RawConfig) :
    ReloadResult :=
  if (newRaw.getD {}).enabled == some false then
    { config := current, changed := false
      warnings := ["[self-heal] config reload: plugin disabled in new config, ignoring"]
      infos := [] }
  else
    let newConfig := parseConfig home newRaw
    let changes := configDiff current newConfig
    if changes.isEmpty then
      { config := current, changed := false, warnings := [], infos := [] }
    else
      { config := newConfig, changed := true, warnings := []
        infos := ["[self-heal] config reloaded: changed " ++ String.intercalate ", " changes] }

/-! ## Signal handlers (agent_end and message_sent) -/

/-- The task-completion signal: `event?.success` and `event?.error`. -/
structure AgentEndEvent where
  success : Option Bool := none
  error : Option String := none
deriving DecidableEq

/-- The key under which the agent_end handler records the cooldown:
`pinnedModel || modelOrder[0]` (the pinned model when readable and truthy,
else the first configured model, or the JS undefined rendered as "" when the
order is empty). -/
def agentEndKey (cfg : PluginConfig) (pinnedModel : Option String) : String :=
  match pinnedModel with
  | some m => if m = "" then cfg.modelOrder.headD "" else m
  | none => cfg.modelOrder.headD ""

/-- Embedding of the agent_end handler (src/unnamed/part_000 lines 617-648).
`pinnedModel` is the best-effort read of the session file (none when the read
or parse failed or no session key was given); `now` is nowSec().  The result
is the state written back by saveState and the session patch attempt, when
one is made, as (sessionKey, fallbackModel). -/
def agentEnd (cfg : PluginConfig) (ev : AgentEndEvent) (sessionKey : Option String)
    (pinnedModel : Option String) (now : Nat) (state : State) :
    State × Option (String × String) :=
  if ev.success ≠ some false then (state, none)
  else
    let rate := isRateLimitLike ev.error
    let auth := isAuthScopeLike ev.error
    if !rate && !auth then (state, none)
    else
      let hitAt := now
      let extra := if auth then 12 * 60 else 0
      let nextAvail := hitAt + (cfg.cooldownMinutes + extra) * 60
      let key := agentEndKey cfg pinnedModel
      let state₁ : State :=
        { state with
            limited := insertKey key
              { lastHitAt := hitAt, nextAvailableAt := nextAvail
                reason := ev.error.map (fun e => e.take 160), lastProbeAt := none }
              state.limited }
      let fallback := pickFallback now cfg.modelOrder state₁
      let patch :=
        match sessionKey, fallback with
        | some k, some f =>
            if cfg.patchPins && f ≠ "" && pinnedModel ≠ some f then some (k, f) else none
        | _, _ => none
      (state₁, patch)

/-- Embedding of the message_sent handler (src/unnamed/part_000 lines
651-669).  `content` is String(event?.content ?? "").  The result is the
state written back and the session patch attempt, when one is made. -/
def messageSent (cfg : PluginConfig) (content : String) (sessionKey : Option String)
    (now : Nat) (state : State) : State × Option (String × String) :=
  if content = "" then (state, none)
  else if !isRateLimitLike (some content) && !isAuthScopeLike (some content) then (state, none)
  else
    let hitAt := now
    let state₁ : State :=
      { state with
          limited := insertKey (cfg.modelOrder.headD "")
            { lastHitAt := hitAt, nextAvailableAt := hitAt + cfg.cooldownMinutes * 60
              reason := some "outbound error observed", lastProbeAt := none }
            state.limited }
    let fallback := pickFallback now cfg.modelOrder state₁
    let patch :=
      match sessionKey with
      | some k => if cfg.patchPins then some (k, (fallback.getD "")) else none
      | none => none
    (state₁, patch)

/-! ## The monitor tick of the source (src/unnamed/part_000 lines 677-799) -/

/-- An external shell command issued through runCmd, abstracted to its kind. -/
inductive ExtCmd where
  | channelsStatus
  | gatewayRestart
  | gatewayStatus
  | cronList
  | cronDisable (id : String)
  | ghIssueCreate (id : String)
  | pluginsList
  | modelProbe (model : String)
deriving DecidableEq

/-- The disruptive commands in the sense of the guardrail section of the
spec: the gateway/channel restart and the cron-disable edit. -/
def disruptive : ExtCmd → Bool
  | ExtCmd.gatewayRestart => true
  | ExtCmd.cronDisable _ => true
  | _ => false

/-- One job row of `openclaw cron list --json`. -/
structure CronJob where
  id : String
  name : String
  lastStatus : String
  lastError : String
deriving DecidableEq

/-- The external observations a tick makes: the current time, the guardrail
verdict (does openclaw.json read and parse, with the error text when not),
the channel-status command outcome and the connected flag derived from its
output, and the cron-list command outcome with its job rows.  Modelling the
guardrail as one flag per tick assumes the config file does not change while
the tick runs. -/
structure TickInputs where
  now : Nat
  configValid : Bool
  cfgError : String := ""
  chanOk : Bool := false
  chanConnected : Bool := false
  cronOk : Bool := false
  jobs : List CronJob := []
deriving DecidableEq

/-- The outcome of a tick: the in-memory state the final saveState persists,
the external commands issued, and the log lines. -/
structure TickResult where
  state : State
  cmds : List ExtCmd
  logs : List String
deriving DecidableEq

/-- The error-level guardrail log of the restart branch. -/
def logNotRestarting (e : String) : String :=
  "[self-heal] NOT restarting gateway: openclaw.json invalid: " ++ e

/-- The error-level guardrail log of the cron branch. -/
def logNotDisabling (e : String) : String :=
  "[self-heal] NOT disabling cron: openclaw.json invalid: " ++ e

/-- The WhatsApp section of the tick (src/unnamed/part_000 lines 683-722).
When connected, the streak resets; when not, the streak increments and the
restart fires only if the streak reaches the threshold and the minimum
interval since the last restart has elapsed, and then only after the
guardrail passes; backupConfig touches only the file system and
cleanupPendingBackups issues the gateway status probe. -/
def whatsappStep (cfg : PluginConfig) (inp : TickInputs) (s : State) : TickResult :=
  if !cfg.whatsappRestartEnabled then { state := s, cmds := [], logs := [] }
  else if !inp.chanOk then { state := s, cmds := [ExtCmd.channelsStatus], logs := [] }
  else if inp.chanConnected then
    { state :=
        { s with whatsapp :=
            { s.whatsapp with lastSeenConnectedAt := some inp.now, disconnectStreak := some 0 } }
      cmds := [ExtCmd.channelsStatus], logs := [] }
  else
    let streak := (s.whatsapp.disconnectStreak.getD 0) + 1
    let s₁ : State := { s with whatsapp := { s.whatsapp with disconnectStreak := some streak } }
    let lastRestartAt := s₁.whatsapp.lastRestartAt.getD 0
    let since : Int := (inp.now : Int) - (lastRestartAt : Int)
    if streak ≥ cfg.whatsappDisconnectThreshold ∧
        since ≥ (cfg.whatsappMinRestartIntervalSec : Int) then
      let warn := "[self-heal] WhatsApp appears disconnected. Restarting gateway."
      if inp.configValid then
        { state :=
            { s₁ with whatsapp :=
                { s₁.whatsapp with lastRestartAt := some inp.now, disconnectStreak := some 0 } }
          cmds := [ExtCmd.channelsStatus, ExtCmd.gatewayRestart, ExtCmd.gatewayStatus]
          logs := [warn] }
      else
        { state := s₁, cmds := [ExtCmd.channelsStatus]
          logs := [warn, logNotRestarting inp.cfgError] }
    else
      { state := s₁, cmds := [ExtCmd.channelsStatus], logs := [] }

/-- The per-job body of the cron loop (src/unnamed/part_000 lines 730-778):
update the consecutive-failure counter, and at the threshold run the
guardrailed disable, the separately rate-limited issue creation, and the
counter reset. -/
def cronJobStep (cfg : PluginConfig) (inp : TickInputs) (s : State) (job : CronJob) :
    State × List ExtCmd × List String :=
  let isFail := job.lastStatus = "error"
  let prev := lookupKeyD job.id s.cron.failCounts 0
  let cnt := if isFail then prev + 1 else 0
  let s₁ : State := { s with cron := { s.cron with failCounts := insertKey job.id cnt s.cron.failCounts } }
  if isFail ∧ cnt ≥ cfg.cronFailThreshold then
    let r₂ : State × List ExtCmd × List String :=
      if inp.configValid then
        (s₁, [ExtCmd.cronDisable job.id, ExtCmd.gatewayStatus],
          ["[self-heal] Disabling failing cron " ++ job.name ++ "."])
      else
        (s₁, [], [logNotDisabling inp.cfgError])
    let lastIssueAt := lookupKeyD job.id r₂.1.cron.lastIssueCreatedAt 0
    let r₃ : State × List ExtCmd :=
      if (inp.now : Int) - (lastIssueAt : Int) ≥ (cfg.issueCooldownSec : Int) then
        ({ r₂.1 with cron :=
            { r₂.1.cron with lastIssueCreatedAt := insertKey job.id inp.now r₂.1.cron.lastIssueCreatedAt } },
          [ExtCmd.ghIssueCreate job.id])
      else (r₂.1, [])
    let s₄ : State := { r₃.1 with cron := { r₃.1.cron with failCounts := insertKey job.id 0 r₃.1.cron.failCounts } }
    (s₄, r₂.2.1 ++ r₃.2, r₂.2.2)
  else
    (s₁, [], [])

/-- The cron loop over the job rows, in order. -/
def cronJobsGo (cfg : PluginConfig) (inp : TickInputs) (s : State) :
    List CronJob → State × List ExtCmd × List String
  | [] => (s, [], [])
  | j :: rest =>
      let r₁ := cronJobStep cfg inp s j
      let r₂ := cronJobsGo cfg inp r₁.1 rest
      (r₂.1, r₁.2.1 ++ r₂.2.1, r₁.2.2 ++ r₂.2.2)

/-- The cron section of the tick (src/unnamed/part_000 lines 725-781). -/
def cronStep (cfg : PluginConfig) (inp : TickInputs) (s : State) : TickResult :=
  if !cfg.disableFailingCrons then { state := s, cmds := [], logs := [] }
  else if !inp.cronOk then { state := s, cmds := [ExtCmd.cronList], logs := [] }
  else
    let r := cronJobsGo cfg inp s inp.jobs
    { state := r.1, cmds := ExtCmd.cronList :: r.2.1, logs := r.2.2 }

/-- The plugins section of the tick (src/unnamed/part_000 lines 784-796): a
read-only listing with no state change and no further action. -/
def pluginsStep (cfg : PluginConfig) (s : State) : TickResult :=
  if cfg.disableFailingPlugins then { state := s, cmds := [ExtCmd.pluginsList], logs := [] }
  else { state := s, cmds := [], logs := [] }

/-- Embedding of one monitor tick (src/unnamed/part_000 lines 677-799) after
the initial reloadConfig has produced the active configuration `cfg`.  The
resulting state is the tick-local state that the final saveState writes. -/
def tick (cfg : PluginConfig) (inp : TickInputs) (s₀ : State) : TickResult :=
  let w := whatsappStep cfg inp s₀
  let c := cronStep cfg inp w.state
  let p := pluginsStep cfg c.state
  { state := p.state, cmds := w.cmds ++ c.cmds ++ p.cmds, logs := w.logs ++ c.logs ++ p.logs }

/-! ## Spec-modelled extension: recovery probing, dry-run, events

The implementation of the recovery-probe scheduler, the dry-run mode and the
structured events is not part of src/ (only src/test/index.test.ts exercises
it), so the definitions below are modelled from spec §4.5-§4.7 and pinned to
the observable behaviour the repository tests demand. -/

/-- A structured observability event (spec §4.9), restricted to the one kind
the claims need. -/
inductive HealEvent where
  | modelRecovered (model : String) (isPreferred : Bool)
deriving DecidableEq

/-- The outcome of one spec-modelled tick: state, external commands, log
lines, and emitted events. -/
structure TickFullResult where
  state : State
  cmds : List ExtCmd
  logs : List String
  events : List HealEvent
deriving DecidableEq

/-- Modelled from the spec: the probe decision for a single cooldown entry
(spec §4.5), missing from src/.  An entry whose cooldown already elapsed is
skipped; probing must be enabled; the probe interval must have elapsed since
the last probe (per the repository tests, since `lastHitAt` when no probe is
recorded); dry-run logs an intent instead of executing.  A successful probe
removes the entry and emits a model-recovered event tagged with whether the
model is modelOrder[0]; a failed probe records `lastProbeAt = now` and keeps
the entry. -/
def probeOne (probeEnabled : Bool) (probeIntervalSec : Nat) (dryRun : Bool) (now : Nat)
    (headModel : String) (probeOk : String → Bool) (m : String) (e : CooldownEntry) :
    Option CooldownEntry × List ExtCmd × List String × List HealEvent :=
  if e.nextAvailableAt ≤ now then (some e, [], [], [])
  else if !probeEnabled then (some e, [], [], [])
  else if (now : Int) - ((e.lastProbeAt.getD e.lastHitAt : Nat) : Int) <
      (probeIntervalSec : Int) then (some e, [], [], [])
  else if dryRun then (some e, [], ["[dry-run] would probe model " ++ m], [])
  else if probeOk m then
    (none, [ExtCmd.modelProbe m],
      ["[self-heal] model " ++ m ++ " recovered early via probe"],
      [HealEvent.modelRecovered m (m == headModel)])
  else
    (some { e with lastProbeAt := some now }, [ExtCmd.modelProbe m], [], [])

/-- Modelled from the spec: the probe loop over the cooldown map, each model
probed independently (spec §4.5), missing from src/. -/
def probeGo (probeEnabled : Bool) (probeIntervalSec : Nat) (dryRun : Bool) (now : Nat)
    (headModel : String) (probeOk : String → Bool) :
    List (String × CooldownEntry) →
      List (String × CooldownEntry) × List ExtCmd × List String × List HealEvent
  | [] => ([], [], [], [])
  | (m, e) :: rest =>
      let r₁ := probeOne probeEnabled probeIntervalSec dryRun now headModel probeOk m e
      let r₂ := probeGo probeEnabled probeIntervalSec dryRun now headModel probeOk rest
      (match r₁.1 with
       | none => r₂.1
       | some e₂ => (m, e₂) :: r₂.1,
       r₁.2.1 ++ r₂.2.1, r₁.2.2.1 ++ r₂.2.2.1, r₁.2.2.2 ++ r₂.2.2.2)

/-- Modelled from the spec: the recovery-probe section of the tick (spec
§4.5), missing from src/. -/
def probeStep (cfg : PluginConfig) (probeEnabled : Bool) (probeIntervalSec : Nat)
    (dryRun : Bool) (now : Nat) (probeOk : String → Bool) (s : State) : TickFullResult :=
  let r :=
    probeGo probeEnabled probeIntervalSec dryRun now (cfg.modelOrder.headD "") probeOk s.limited
  { state := { s with limited := r.1 }, cmds := r.2.1, logs := r.2.2.1, events := r.2.2.2 }

/-- Modelled from the spec: the WhatsApp section of the tick with dry-run
semantics (spec §4.6), missing from src/.  The guardrail still blocks an
invalid configuration; with a valid one, dry-run performs the identical
streak/timestamp bookkeeping but logs an intent instead of running the
restart commands. -/
def whatsappStepD (cfg : PluginConfig) (dryRun : Bool) (inp : TickInputs) (s : State) :
    TickResult :=
  if !cfg.whatsappRestartEnabled then { state := s, cmds := [], logs := [] }
  else if !inp.chanOk then { state := s, cmds := [ExtCmd.channelsStatus], logs := [] }
  else if inp.chanConnected then
    { state :=
        { s with whatsapp :=
            { s.whatsapp with lastSeenConnectedAt := some inp.now, disconnectStreak := some 0 } }
      cmds := [ExtCmd.channelsStatus], logs := [] }
  else
    let streak := (s.whatsapp.disconnectStreak.getD 0) + 1
    let s₁ : State := { s with whatsapp := { s.whatsapp with disconnectStreak := some streak } }
    let lastRestartAt := s₁.whatsapp.lastRestartAt.getD 0
    let since : Int := (inp.now : Int) - (lastRestartAt : Int)
    if streak ≥ cfg.whatsappDisconnectThreshold ∧
        since ≥ (cfg.whatsappMinRestartIntervalSec : Int) then
      let warn := "[self-heal] WhatsApp appears disconnected. Restarting gateway."
      if inp.configValid then
        if dryRun then
          { state :=
              { s₁ with whatsapp :=
                  { s₁.whatsapp with lastRestartAt := some inp.now, disconnectStreak := some 0 } }
            cmds := [ExtCmd.channelsStatus]
            logs := [warn, "[dry-run] would restart gateway"] }
        else
          { state :=
              { s₁ with whatsapp :=
                  { s₁.whatsapp with lastRestartAt := some inp.now, disconnectStreak := some 0 } }
            cmds := [ExtCmd.channelsStatus, ExtCmd.gatewayRestart, ExtCmd.gatewayStatus]
            logs := [warn] }
      else
        { state := s₁, cmds := [ExtCmd.channelsStatus]
          logs := [warn, logNotRestarting inp.cfgError] }
    else
      { state := s₁, cmds := [ExtCmd.channelsStatus], logs := [] }

/-- Modelled from the spec: the per-job cron body with dry-run semantics
(spec §4.7), missing from src/.  Counter bookkeeping and the issue timestamp
update identically; dry-run replaces the disable command and the issue
command with intent logs. -/
def cronJobStepD (cfg : PluginConfig) (dryRun : Bool) (inp : TickInputs) (s : State)
    (job : CronJob) : State × List ExtCmd × List String :=
  let isFail := job.lastStatus = "error"
  let prev := lookupKeyD job.id s.cron.failCounts 0
  let cnt := if isFail then prev + 1 else 0
  let s₁ : State := { s with cron := { s.cron with failCounts := insertKey job.id cnt s.cron.failCounts } }
  if isFail ∧ cnt ≥ cfg.cronFailThreshold then
    let r₂ : State × List ExtCmd × List String :=
      if inp.configValid then
        if dryRun then
          (s₁, [], ["[dry-run] would disable cron " ++ job.name])
        else
          (s₁, [ExtCmd.cronDisable job.id, ExtCmd.gatewayStatus],
            ["[self-heal] Disabling failing cron " ++ job.name ++ "."])
      else
        (s₁, [], [logNotDisabling inp.cfgError])
    let lastIssueAt := lookupKeyD job.id r₂.1.cron.lastIssueCreatedAt 0
    let r₃ : State × List ExtCmd × List String :=
      if (inp.now : Int) - (lastIssueAt : Int) ≥ (cfg.issueCooldownSec : Int) then
        if dryRun then
          ({ r₂.1 with cron :=
              { r₂.1.cron with lastIssueCreatedAt := insertKey job.id inp.now r₂.1.cron.lastIssueCreatedAt } },
            ([] : List ExtCmd), ["[dry-run] would create GitHub issue for cron " ++ job.name])
        else
          ({ r₂.1 with cron :=
              { r₂.1.cron with lastIssueCreatedAt := insertKey job.id inp.now r₂.1.cron.lastIssueCreatedAt } },
            [ExtCmd.ghIssueCreate job.id], ([] : List String))
      else (r₂.1, [], [])
    let s₄ : State := { r₃.1 with cron := { r₃.1.cron with failCounts := insertKey job.id 0 r₃.1.cron.failCounts } }
    (s₄, r₂.2.1 ++ r₃.2.1, r₂.2.2 ++ r₃.2.2)
  else
    (s₁, [], [])

/-- Modelled from the spec: the cron loop with dry-run semantics, missing
from src/. -/
def cronJobsGoD (cfg : PluginConfig) (dryRun : Bool) (inp : TickInputs) (s : State) :
    List CronJob → State × List ExtCmd × List String
  | [] => (s, [], [])
  | j :: rest =>
      let r₁ := cronJobStepD cfg dryRun inp s j
      let r₂ := cronJobsGoD cfg dryRun inp r₁.1 rest
      (r₂.1, r₁.2.1 ++ r₂.2.1, r₁.2.2 ++ r₂.2.2)

/-- Modelled from the spec: the cron section with dry-run semantics, missing
from src/. -/
def cronStepD (cfg : PluginConfig) (dryRun : Bool) (inp : TickInputs) (s : State) : TickResult :=
  if !cfg.disableFailingCrons then { state := s, cmds := [], logs := [] }
  else if !inp.cronOk then { state := s, cmds := [ExtCmd.cronList], logs := [] }
  else
    let r := cronJobsGoD cfg dryRun inp s inp.jobs
    { state := r.1, cmds := ExtCmd.cronList :: r.2.1, logs := r.2.2 }

/-- Modelled from the spec: one full monitor tick with probing and dry-run
(spec §2 control flow: channel healer, job healer, probe scheduler in
sequence), missing from src/. -/
def tickModel (cfg : PluginConfig) (probeEnabled : Bool) (probeIntervalSec : Nat)
    (dryRun : Bool) (inp : TickInputs) (probeOk : String → Bool) (s₀ : State) :
    TickFullResult :=
  let w := whatsappStepD cfg dryRun inp s₀
  let c := cronStepD cfg dryRun inp w.state
  let p := probeStep cfg probeEnabled probeIntervalSec dryRun inp.now probeOk c.state
  { state := p.state
    cmds := w.cmds ++ c.cmds ++ p.cmds
    logs := w.logs ++ c.logs ++ p.logs
    events := p.events }

/-! ## Shared sample inputs used by witnesses and counterexamples -/

/-- A small normalized configuration used to instantiate theorems on
concrete inputs. -/
def sampleConfig : PluginConfig :=
  { modelOrder := ["model-a", "model-b"]
    cooldownMinutes := 10
    stateFile := "/tmp/openclaw/state.json"
    sessionsFile := "/tmp/openclaw/sessions.json"
    configFile := "/tmp/openclaw/openclaw.json"
    configBackupsDir := "/tmp/openclaw/backups"
    patchPins := true
    disableFailingCrons := true
    disableFailingPlugins := false
    whatsappRestartEnabled := true
    whatsappDisconnectThreshold := 2
    whatsappMinRestartIntervalSec := 300
    cronFailThreshold := 3
    issueCooldownSec := 21600
    pluginDisableCooldownSec := 3600 }

/-- A cron job row that has just failed, used to instantiate theorems. -/
def sampleJob : CronJob :=
  { id := "job-1", name := "daily-job", lastStatus := "error", lastError := "boom" }

/-- Concrete tick observations with an invalid configuration file. -/
def sampleTickInputsInvalid : TickInputs :=
  { now := 1000, configValid := false, cfgError := "Unexpected token"
    chanOk := true, chanConnected := false, cronOk := true, jobs := [sampleJob] }

/-- Concrete tick observations with a valid configuration file. -/
def sampleTickInputsValid : TickInputs :=
  { now := 1000, configValid := true, cfgError := ""
    chanOk := true, chanConnected := false, cronOk := true, jobs := [sampleJob] }

/-- A starting state whose disconnect streak sits at the restart threshold
and whose job counter is one failure short of the cron threshold. -/
def sampleStreakState : State :=
  { whatsapp := { disconnectStreak := some 2 }
    cron := { failCounts := [("job-1", 2)] } }

/-- A cooldown entry hit only 10 seconds ago, with no probe recorded. -/
def sampleProbeEntry : CooldownEntry := { lastHitAt := 990, nextAvailableAt := 9999 }

/-- A cooldown entry hit 400 seconds ago, with no probe recorded. -/
def sampleProbeReadyEntry : CooldownEntry := { lastHitAt := 600, nextAvailableAt := 9999 }

/-- A state whose only cooldown entry is the recently hit one. -/
def sampleProbeState : State := { limited := [("model-a", sampleProbeEntry)] }

/-- A state whose only cooldown entry is old enough to probe. -/
def sampleProbeReadyState : State := { limited := [("model-a", sampleProbeReadyEntry)] }

/-- Tick observations with a valid configuration and failing status queries,
so only the probe section can act. -/
def sampleProbeInputs : TickInputs :=
  { now := 1000, configValid := true, chanOk := false, cronOk := false }

/-! # Theorems -/

/-! ## Association-list lemmas -/

theorem lookupKey_insertKey_self {β : Type} (k : String) (v : β) (l : List (String × β)) :
    lookupKey k (insertKey k v l) = some v := by
  induction l with
  | nil => simp [insertKey, lookupKey]
  | cons hd tl ih =>
      obtain ⟨k₂, w⟩ := hd
      by_cases h : k₂ = k
      · simp [insertKey, lookupKey, h]
      · simp [insertKey, lookupKey, h, ih]

theorem lookupKey_insertKey_ne {β : Type} (k k₂ : String) (v : β) (l : List (String × β))
    (h : k₂ ≠ k) : lookupKey k₂ (insertKey k v l) = lookupKey k₂ l := by
  induction l with
  | nil => simp [insertKey, lookupKey, Ne.symm h]
  | cons hd tl ih =>
      obtain ⟨k₃, w⟩ := hd
      by_cases hk : k₃ = k
      · subst hk
        simp [insertKey, lookupKey, Ne.symm h]
      · simp [insertKey, lookupKey, hk, ih]

theorem lookupKey_eq_none_of_not_mem {β : Type} (k : String) (l : List (String × β))
    (h : k ∉ l.map Prod.fst) : lookupKey k l = none := by
  induction l with
  | nil => simp [lookupKey]
  | cons hd tl ih =>
      obtain ⟨k₂, w⟩ := hd
      simp only [List.map_cons, List.mem_cons] at h
      push_neg at h
      simp [lookupKey, Ne.symm h.1, ih h.2]

/-! ## C2: fallback selection -/

/-- The for-loop of pickFallback is exactly a first-match search for an
available model. -/
theorem pickFallbackLoop_eq_find? (t : Nat) (lim : List (String × CooldownEntry)) :
    ∀ l : List String, pickFallbackLoop t lim l = l.find? (availableB t lim) := by
  intro l
  induction l with
  | nil => simp [pickFallbackLoop]
  | cons m rest ih =>
      simp only [pickFallbackLoop, List.find?_cons, availableB]
      cases h : lookupKey m lim with
      | none => simp
      | some e =>
          by_cases hle : e.nextAvailableAt ≤ t
          · simp [hle]
          · simp [hle, ih]

/-- C2: for a non-empty modelOrder, pickFallback returns the first model with
no cooldown entry or an elapsed one; when every model is still cooling down it
returns the last model; the result is always a member of modelOrder; and a
single-model list always yields that model. -/
theorem pickFallback_spec (t : Nat) (order : List String) (st : State) (h : order ≠ []) :
    pickFallback t order st =
      some ((order.find? (availableB t st.limited)).getD (order.getLast h)) ∧
    (∀ m, pickFallback t order st = some m → m ∈ order) ∧
    ((∀ m ∈ order, availableB t st.limited m = false) →
      pickFallback t order st = some (order.getLast h)) ∧
    (∀ x, order = [x] → pickFallback t order st = some x) := by
  have hloop : pickFallback t order st =
      match order.find? (availableB t st.limited) with
      | some m => some m
      | none => order.getLast? := by
    simp [pickFallback, pickFallbackLoop_eq_find?]
  refine ⟨?_, ?_, ?_, ?_⟩
  · rw [hloop]
    cases hf : order.find? (availableB t st.limited) with
    | none => simp [List.getLast?_eq_getLast_of_ne_nil h]
    | some m => simp
  · intro m hm
    rw [hloop] at hm
    cases hf : order.find? (availableB t st.limited) with
    | none =>
        rw [hf] at hm
        simp only at hm
        rw [List.getLast?_eq_getLast_of_ne_nil h] at hm
        obtain rfl : order.getLast h = m := by simpa using hm
        exact List.getLast_mem h
    | some m₂ =>
        rw [hf] at hm
        obtain rfl : m₂ = m := by simpa using hm
        exact List.mem_of_find?_eq_some hf
  · intro hall
    rw [hloop]
    have hf : order.find? (availableB t st.limited) = none := by
      rw [List.find?_eq_none]
      intro x hx
      simp [hall x hx]
    rw [hf]
    simp [List.getLast?_eq_getLast_of_ne_nil h]
  · intro x hx
    subst hx
    rw [hloop]
    cases hf : [x].find? (availableB t st.limited) with
    | none => simp
    | some m₂ =>
        have := List.mem_of_find?_eq_some hf
        simp at this
        simp [this]

/-- Witness for C2 at a concrete single-model list. -/
theorem pickFallback_spec_witness :
    (["only-model"] : List String) ≠ [] ∧
    pickFallback 0 ["only-model"] {} = some "only-model" :=
  ⟨by decide, (pickFallback_spec 0 ["only-model"] {} (by decide)).2.2.2 "only-model" rfl⟩

/-! ## C3: state loading -/

theorem insertKey_lookup_eq {β : Type} (k : String) (v : β) :
    ∀ l : List (String × β), lookupKey k l = some v → insertKey k v l = l := by
  intro l
  induction l with
  | nil => intro h; simp [lookupKey] at h
  | cons hd tl ih =>
      obtain ⟨k₂, w⟩ := hd
      intro h
      by_cases hk : k₂ = k
      · subst hk
        simp [lookupKey] at h
        simp [insertKey, h]
      · simp only [lookupKey, if_neg hk] at h
        simp [insertKey, hk, ih h]

theorem getProp_obj (fields : List (String × Json)) (k : String) :
    getProp (Json.obj fields) k = Except.ok (lookupKey k fields) := rfl

theorem exThen_ok (d : Json) (f : Json → Except Unit Json) :
    exThen (Except.ok d) f = f d := rfl

theorem exThen_err (e : Unit) (f : Json → Except Unit Json) :
    exThen (Except.error e) f = Except.error e := rfl

theorem backfillProp_obj (fields : List (String × Json)) (k : String) :
    backfillProp (Json.obj fields) k = Except.ok (Json.obj (backfillFields fields k)) := by
  simp only [backfillProp, backfillFields, getProp, setProp]
  cases h : lookupKey k fields with
  | none => rfl
  | some v => cases hv : jsonTruthy v <;> simp [hv]

theorem backfillNested_obj (fields : List (String × Json)) (outer inner : String)
    (cf : List (String × Json)) (hc : lookupKey outer fields = some (Json.obj cf)) :
    backfillNested (Json.obj fields) outer inner =
      Except.ok (Json.obj (insertKey outer (Json.obj (backfillFields cf inner)) fields)) := by
  simp only [backfillNested, getProp, setProp, backfillFields, hc]
  cases h : lookupKey inner cf with
  | none => rfl
  | some j =>
      cases hj : jsonTruthy j with
      | false => simp [hj]
      | true =>
          simp only [hj, if_true]
          rw [insertKey_lookup_eq outer (Json.obj cf) fields hc]

theorem backfillNested_prim (fields : List (String × Json)) (outer inner : String)
    (v : Json) (hc : lookupKey outer fields = some v) (hp : jsonPrim v = true) :
    backfillNested (Json.obj fields) outer inner = Except.error () := by
  cases v with
  | null => simp [backfillNested, getProp, setProp, hc]
  | bool b => simp [backfillNested, getProp, setProp, hc]
  | num n => simp [backfillNested, getProp, setProp, hc]
  | str s => simp [backfillNested, getProp, setProp, hc]
  | arr a p => simp [jsonPrim] at hp
  | obj f => simp [jsonPrim] at hp

theorem backfillState_prim (d : Json) (hp : jsonPrim d = true) :
    backfillState d = Except.error () := by
  cases d with
  | null => rfl
  | bool b => rfl
  | num n => rfl
  | str s => rfl
  | arr a p => simp [jsonPrim] at hp
  | obj f => simp [jsonPrim] at hp

theorem lookupKey_backfillFields_ne (fields : List (String × Json)) (k k₂ : String)
    (h : k₂ ≠ k) : lookupKey k₂ (backfillFields fields k) = lookupKey k₂ fields := by
  unfold backfillFields
  cases h₂ : lookupKey k fields with
  | none => exact lookupKey_insertKey_ne k k₂ _ fields h
  | some v =>
      by_cases hv : jsonTruthy v = true
      · simp [hv]
      · simp [hv, lookupKey_insertKey_ne k k₂ _ fields h]

theorem lookupKey_backfillFields_self_truthy (fields : List (String × Json)) (k : String)
    (v : Json) (h : lookupKey k fields = some v) (hv : jsonTruthy v = true) :
    lookupKey k (backfillFields fields k) = some v := by
  unfold backfillFields
  simp [h, hv]

theorem lookupKey_backfillFields_self_falsy (fields : List (String × Json)) (k : String)
    (h : truthyAt fields k = false) :
    lookupKey k (backfillFields fields k) = some (Json.obj []) := by
  unfold backfillFields
  unfold truthyAt at h
  cases h₂ : lookupKey k fields with
  | none => simp [lookupKey_insertKey_self]
  | some v =>
      rw [h₂] at h
      replace h : jsonTruthy v = false := h
      simp [h, lookupKey_insertKey_self]

theorem lookupKey_backfillFields_self (fields : List (String × Json)) (k : String) :
    ∃ v, lookupKey k (backfillFields fields k) = some v := by
  cases hl : lookupKey k fields with
  | none =>
      exact ⟨_, lookupKey_backfillFields_self_falsy fields k (by unfold truthyAt; rw [hl])⟩
  | some v =>
      by_cases htr : jsonTruthy v = true
      · exact ⟨v, lookupKey_backfillFields_self_truthy fields k v hl htr⟩
      · exact ⟨_, lookupKey_backfillFields_self_falsy fields k
          (by unfold truthyAt; rw [hl]; simpa using htr)⟩

theorem objSafeAt_congr (A B : List (String × Json)) (k : String)
    (h : lookupKey k A = lookupKey k B) : objSafeAt A k = objSafeAt B k := by
  unfold objSafeAt
  rw [h]

theorem lookupKey_backfillFields_objSafe (fields : List (String × Json)) (k : String)
    (hsafe : objSafeAt fields k = true) :
    ∃ cf, lookupKey k (backfillFields fields k) = some (Json.obj cf) := by
  unfold objSafeAt at hsafe
  cases hl : lookupKey k fields with
  | none =>
      exact ⟨[], lookupKey_backfillFields_self_falsy fields k (by unfold truthyAt; rw [hl])⟩
  | some v =>
      rw [hl] at hsafe
      by_cases htr : jsonTruthy v = true
      · have hobj : isObj v = true := by
          rcases Bool.or_eq_true_iff.mp hsafe with h | h
          · rw [htr] at h; simp at h
          · exact h
        cases v with
        | obj cf => exact ⟨cf, lookupKey_backfillFields_self_truthy fields k _ hl htr⟩
        | null => simp [isObj] at hobj
        | bool b => simp [isObj] at hobj
        | num n => simp [isObj] at hobj
        | str s => simp [isObj] at hobj
        | arr a p => simp [isObj] at hobj
      · exact ⟨[], lookupKey_backfillFields_self_falsy fields k
          (by unfold truthyAt; rw [hl]; simpa using htr)⟩

/-- Counterexample for C3 as stated: the state file content {"limited": 5}
parses, the truthiness test `if (!d.limited)` keeps the truthy number, and
loadState returns it unchanged — the limited sub-map is present but is the
number 5, not an empty map, although the input is structurally defective. -/
theorem loadState_counterexample :
    loadState (some (Json.obj [("limited", Json.num 5)])) =
      Json.obj
        [("limited", Json.num 5), ("pendingBackups", Json.obj []), ("whatsapp", Json.obj []),
          ("cron", Json.obj [("failCounts", Json.obj []), ("lastIssueCreatedAt", Json.obj [])]),
          ("plugins", Json.obj [("lastDisableAt", Json.obj [])])] ∧
    getProp (loadState (some (Json.obj [("limited", Json.num 5)]))) "limited" =
      Except.ok (some (Json.num 5)) ∧
    Json.num 5 ≠ Json.obj [] := by
  refine ⟨rfl, rfl, fun h => ?_⟩
  cases h

/-- C3 (amended): loadState never raises — every raising path inside its body
ends in the catch branch.  On a missing or unparsable file it returns the
all-empty default.  A parsed non-object file, or a truthy non-object cron
field, makes a back-fill assignment throw a strict-mode TypeError that the
catch turns into the all-empty default.  On a parsed object whose cron and
plugins fields are absent, falsy or objects, each absent-or-falsy sub-map is
back-filled with an empty map while a truthy value — even an ill-typed one
such as a number — is passed through unchanged, and the cron and plugins
sub-maps are objects whose inner maps are present. -/
theorem loadState_spec :
    loadState none = defaultStateJson ∧
    (∀ d : Json, jsonPrim d = true → loadState (some d) = defaultStateJson) ∧
    (∀ (fields : List (String × Json)) (v : Json),
      lookupKey "cron" fields = some v → jsonTruthy v = true → jsonPrim v = true →
      loadState (some (Json.obj fields)) = defaultStateJson) ∧
    ∀ fields : List (String × Json), cronPluginsSafe fields = true →
      ((∀ v, lookupKey "limited" fields = some v → jsonTruthy v = true →
          getProp (loadState (some (Json.obj fields))) "limited" = Except.ok (some v)) ∧
        (truthyAt fields "limited" = false →
          getProp (loadState (some (Json.obj fields))) "limited" =
            Except.ok (some (Json.obj [])))) ∧
      ((∀ v, lookupKey "pendingBackups" fields = some v → jsonTruthy v = true →
          getProp (loadState (some (Json.obj fields))) "pendingBackups" = Except.ok (some v)) ∧
        (truthyAt fields "pendingBackups" = false →
          getProp (loadState (some (Json.obj fields))) "pendingBackups" =
            Except.ok (some (Json.obj [])))) ∧
      ((∀ v, lookupKey "whatsapp" fields = some v → jsonTruthy v = true →
          getProp (loadState (some (Json.obj fields))) "whatsapp" = Except.ok (some v)) ∧
        (truthyAt fields "whatsapp" = false →
          getProp (loadState (some (Json.obj fields))) "whatsapp" =
            Except.ok (some (Json.obj [])))) ∧
      (∃ cf, getProp (loadState (some (Json.obj fields))) "cron" =
          Except.ok (some (Json.obj cf)) ∧
        (∃ x, lookupKey "failCounts" cf = some x) ∧
        (∃ x, lookupKey "lastIssueCreatedAt" cf = some x)) ∧
      (∃ pf, getProp (loadState (some (Json.obj fields))) "plugins" =
          Except.ok (some (Json.obj pf)) ∧
        ∃ x, lookupKey "lastDisableAt" pf = some x) := by
  refine ⟨rfl, ?_, ?_, ?_⟩
  · intro d hp
    simp only [loadState]
    rw [backfillState_prim d hp]
  · intro fields v hv htr hp
    have h₁ : lookupKey "cron" (backfillFields fields "limited") = some v := by
      rw [lookupKey_backfillFields_ne fields "limited" "cron" (by decide), hv]
    have h₂ : lookupKey "cron"
        (backfillFields (backfillFields fields "limited") "pendingBackups") = some v := by
      rw [lookupKey_backfillFields_ne _ "pendingBackups" "cron" (by decide), h₁]
    have h₃ : lookupKey "cron"
        (backfillFields (backfillFields (backfillFields fields "limited") "pendingBackups")
          "whatsapp") = some v := by
      rw [lookupKey_backfillFields_ne _ "whatsapp" "cron" (by decide), h₂]
    have h₄ : lookupKey "cron"
        (backfillFields
          (backfillFields (backfillFields (backfillFields fields "limited") "pendingBackups")
            "whatsapp") "cron") = some v :=
      lookupKey_backfillFields_self_truthy _ "cron" v h₃ htr
    have hbs : backfillState (Json.obj fields) = Except.error () := by
      simp only [backfillState, backfillProp_obj, exThen_ok]
      rw [backfillNested_prim _ "cron" "failCounts" v h₄ hp]
      rfl
    simp only [loadState]
    rw [hbs]
  · intro fields hsafe
    have hand := hsafe
    unfold cronPluginsSafe at hand
    have hsc : objSafeAt fields "cron" = true := (Bool.and_eq_true _ _ ▸ hand).1
    have hsp : objSafeAt fields "plugins" = true := (Bool.and_eq_true _ _ ▸ hand).2
    have hc₃ : lookupKey "cron"
        (backfillFields (backfillFields (backfillFields fields "limited") "pendingBackups")
          "whatsapp") = lookupKey "cron" fields := by
      rw [lookupKey_backfillFields_ne _ "whatsapp" "cron" (by decide),
        lookupKey_backfillFields_ne _ "pendingBackups" "cron" (by decide),
        lookupKey_backfillFields_ne _ "limited" "cron" (by decide)]
    obtain ⟨cf₄, hc₄⟩ :=
      lookupKey_backfillFields_objSafe
        (backfillFields (backfillFields (backfillFields fields "limited") "pendingBackups")
          "whatsapp") "cron"
        (by rw [objSafeAt_congr _ fields "cron" hc₃]; exact hsc)
    obtain ⟨f₈, hbs, hl₈, hb₈, hw₈, hcr₈, hpl₈⟩ :
        ∃ f₈ : List (String × Json),
          backfillState (Json.obj fields) = Except.ok (Json.obj f₈) ∧
          lookupKey "limited" f₈ =
            lookupKey "limited" (backfillFields fields "limited") ∧
          lookupKey "pendingBackups" f₈ =
            lookupKey "pendingBackups"
              (backfillFields (backfillFields fields "limited") "pendingBackups") ∧
          lookupKey "whatsapp" f₈ =
            lookupKey "whatsapp"
              (backfillFields (backfillFields (backfillFields fields "limited")
                "pendingBackups") "whatsapp") ∧
          (∃ cf, lookupKey "cron" f₈ = some (Json.obj cf) ∧
            (∃ x, lookupKey "failCounts" cf = some x) ∧
            (∃ x, lookupKey "lastIssueCreatedAt" cf = some x)) ∧
          (∃ pf, lookupKey "plugins" f₈ = some (Json.obj pf) ∧
            ∃ x, lookupKey "lastDisableAt" pf = some x) := by
      have hc₅ : lookupKey "cron"
          (insertKey "cron" (Json.obj (backfillFields cf₄ "failCounts"))
            (backfillFields
              (backfillFields (backfillFields (backfillFields fields "limited")
                "pendingBackups") "whatsapp") "cron")) =
          some (Json.obj (backfillFields cf₄ "failCounts")) :=
        lookupKey_insertKey_self "cron" _ _
      have hp₆ : lookupKey "plugins"
          (insertKey "cron"
            (Json.obj (backfillFields (backfillFields cf₄ "failCounts") "lastIssueCreatedAt"))
            (insertKey "cron" (Json.obj (backfillFields cf₄ "failCounts"))
              (backfillFields
                (backfillFields (backfillFields (backfillFields fields "limited")
                  "pendingBackups") "whatsapp") "cron"))) = lookupKey "plugins" fields := by
        rw [lookupKey_insertKey_ne "cron" "plugins" _ _ (by decide),
          lookupKey_insertKey_ne "cron" "plugins" _ _ (by decide),
          lookupKey_backfillFields_ne _ "cron" "plugins" (by decide),
          lookupKey_backfillFields_ne _ "whatsapp" "plugins" (by decide),
          lookupKey_backfillFields_ne _ "pendingBackups" "plugins" (by decide),
          lookupKey_backfillFields_ne _ "limited" "plugins" (by decide)]
      obtain ⟨pf₇, hp₇⟩ :=
        lookupKey_backfillFields_objSafe _ "plugins"
          (by rw [objSafeAt_congr _ fields "plugins" hp₆]; exact hsp)
      refine ⟨insertKey "plugins" (Json.obj (backfillFields pf₇ "lastDisableAt"))
          (backfillFields
            (insertKey "cron"
              (Json.obj (backfillFields (backfillFields cf₄ "failCounts") "lastIssueCreatedAt"))
              (insertKey "cron" (Json.obj (backfillFields cf₄ "failCounts"))
                (backfillFields
                  (backfillFields (backfillFields (backfillFields fields "limited")
                    "pendingBackups") "whatsapp") "cron")))
            "plugins"),
        ?_, ?_, ?_, ?_, ?_, ?_⟩
      · simp only [backfillState, backfillProp_obj, exThen_ok]
        rw [backfillNested_obj _ "cron" "failCounts" cf₄ hc₄]
        simp only [exThen_ok]
        rw [backfillNested_obj _ "cron" "lastIssueCreatedAt" _ hc₅]
        simp only [exThen_ok, backfillProp_obj]
        rw [backfillNested_obj _ "plugins" "lastDisableAt" pf₇ hp₇]
      · rw [lookupKey_insertKey_ne "plugins" "limited" _ _ (by decide),
          lookupKey_backfillFields_ne _ "plugins" "limited" (by decide),
          lookupKey_insertKey_ne "cron" "limited" _ _ (by decide),
          lookupKey_insertKey_ne "cron" "limited" _ _ (by decide),
          lookupKey_backfillFields_ne _ "cron" "limited" (by decide),
          lookupKey_backfillFields_ne _ "whatsapp" "limited" (by decide),
          lookupKey_backfillFields_ne _ "pendingBackups" "limited" (by decide)]
      · rw [lookupKey_insertKey_ne "plugins" "pendingBackups" _ _ (by decide),
          lookupKey_backfillFields_ne _ "plugins" "pendingBackups" (by decide),
          lookupKey_insertKey_ne "cron" "pendingBackups" _ _ (by decide),
          lookupKey_insertKey_ne "cron" "pendingBackups" _ _ (by decide),
          lookupKey_backfillFields_ne _ "cron" "pendingBackups" (by decide),
          lookupKey_backfillFields_ne _ "whatsapp" "pendingBackups" (by decide)]
      · rw [lookupKey_insertKey_ne "plugins" "whatsapp" _ _ (by decide),
          lookupKey_backfillFields_ne _ "plugins" "whatsapp" (by decide),
          lookupKey_insertKey_ne "cron" "whatsapp" _ _ (by decide),
          lookupKey_insertKey_ne "cron" "whatsapp" _ _ (by decide),
          lookupKey_backfillFields_ne _ "cron" "whatsapp" (by decide)]
      · refine ⟨backfillFields (backfillFields cf₄ "failCounts") "lastIssueCreatedAt", ?_, ?_, ?_⟩
        · rw [lookupKey_insertKey_ne "plugins" "cron" _ _ (by decide),
            lookupKey_backfillFields_ne _ "plugins" "cron" (by decide)]
          exact lookupKey_insertKey_self "cron" _ _
        · rw [lookupKey_backfillFields_ne _ "lastIssueCreatedAt" "failCounts" (by decide)]
          exact lookupKey_backfillFields_self cf₄ "failCounts"
        · exact lookupKey_backfillFields_self _ "lastIssueCreatedAt"
      · exact ⟨backfillFields pf₇ "lastDisableAt", lookupKey_insertKey_self "plugins" _ _,
          lookupKey_backfillFields_self pf₇ "lastDisableAt"⟩
    have hload : loadState (some (Json.obj fields)) = Json.obj f₈ := by
      simp only [loadState]
      rw [hbs]
    refine ⟨⟨fun v hv htr => ?_, fun hf => ?_⟩, ⟨fun v hv htr => ?_, fun hf => ?_⟩,
      ⟨fun v hv htr => ?_, fun hf => ?_⟩, ?_, ?_⟩
    · rw [hload, getProp_obj, hl₈,
        lookupKey_backfillFields_self_truthy fields "limited" v hv htr]
    · rw [hload, getProp_obj, hl₈,
        lookupKey_backfillFields_self_falsy fields "limited" hf]
    · rw [hload, getProp_obj, hb₈,
        lookupKey_backfillFields_self_truthy _ "pendingBackups" v
          (by rw [lookupKey_backfillFields_ne _ "limited" "pendingBackups" (by decide)]
              exact hv)
          htr]
    · rw [hload, getProp_obj, hb₈,
        lookupKey_backfillFields_self_falsy _ "pendingBackups"
          (by unfold truthyAt at hf ⊢
              rw [lookupKey_backfillFields_ne _ "limited" "pendingBackups" (by decide)]
              exact hf)]
    · rw [hload, getProp_obj, hw₈,
        lookupKey_backfillFields_self_truthy _ "whatsapp" v
          (by rw [lookupKey_backfillFields_ne _ "pendingBackups" "whatsapp" (by decide),
                lookupKey_backfillFields_ne _ "limited" "whatsapp" (by decide)]
              exact hv)
          htr]
    · rw [hload, getProp_obj, hw₈,
        lookupKey_backfillFields_self_falsy _ "whatsapp"
          (by unfold truthyAt at hf ⊢
              rw [lookupKey_backfillFields_ne _ "pendingBackups" "whatsapp" (by decide),
                lookupKey_backfillFields_ne _ "limited" "whatsapp" (by decide)]
              exact hf)]
    · obtain ⟨cf, hcf, hx₁, hx₂⟩ := hcr₈
      exact ⟨cf, by rw [hload, getProp_obj, hcf], hx₁, hx₂⟩
    · obtain ⟨pf, hpf, hx⟩ := hpl₈
      exact ⟨pf, by rw [hload, getProp_obj, hpf], hx⟩

/-- Witness for C3's amended theorem at the counterexample input: the safety
condition holds, the limited field is a truthy number, and it is passed
through unchanged. -/
theorem loadState_spec_witness :
    cronPluginsSafe [("limited", Json.num 5)] = true ∧
    lookupKey "limited" [("limited", Json.num 5)] = some (Json.num 5) ∧
    jsonTruthy (Json.num 5) = true ∧
    getProp (loadState (some (Json.obj [("limited", Json.num 5)]))) "limited" =
      Except.ok (some (Json.num 5)) :=
  ⟨rfl, rfl, rfl,
    ((loadState_spec.2.2.2 [("limited", Json.num 5)] rfl).1).1 (Json.num 5) rfl rfl⟩

/-! ## C4: state saving is not write-then-rename -/

/-- Counterexample for C4: at a concrete path and state, the file-system
trace of saveState fails the write-then-rename pattern the claim asserts; it
is a bare mkdir followed by a direct write of the target file. -/
theorem saveState_counterexample :
    atomicReplacePattern "/tmp/openclaw/state.json"
        (saveState "/tmp/openclaw/state.json" {}) = false ∧
    saveState "/tmp/openclaw/state.json" {} =
      [FsOp.mkdirp "/tmp/openclaw", FsOp.writeFile "/tmp/openclaw/state.json" {}] := by
  constructor
  · rfl
  · rfl

/-- C4 corrected: saveState creates the parent directory and then writes the
full State directly to the target path in a single write call, with no
rename step in its trace. -/
theorem saveState_direct_write (p : String) (s : State) :
    FsOp.mkdirp (dirname p) ∈ saveState p s ∧
    FsOp.writeFile p s ∈ saveState p s ∧
    ∀ a b, FsOp.rename a b ∉ saveState p s := by
  refine ⟨by simp [saveState], by simp [saveState], fun a b => ?_⟩
  simp [saveState]

/-! ## C7: auth-scope failures get the 12-hour penalty -/

/-- C7: on a task-completion signal with success=false whose error is
classified auth-scope-like, the agent_end handler writes a cooldown entry
with lastHitAt = now and nextAvailableAt = now + (cooldownMinutes + 720) * 60
(the configured cooldown plus 12 hours), keyed by the pinned model or the
first configured model. -/
theorem agentEnd_auth_penalty (cfg : PluginConfig) (ev : AgentEndEvent)
    (sessionKey pinnedModel : Option String) (now : Nat) (st : State)
    (h₁ : ev.success = some false) (h₂ : isAuthScopeLike ev.error = true) :
    lookupKey (agentEndKey cfg pinnedModel)
        ((agentEnd cfg ev sessionKey pinnedModel now st).1).limited =
      some { lastHitAt := now, nextAvailableAt := now + (cfg.cooldownMinutes + 720) * 60
             reason := ev.error.map (fun e => e.take 160), lastProbeAt := none } := by
  simp only [agentEnd, h₁, h₂]
  simp [lookupKey_insertKey_self]

/-- Witness for C7 at a concrete 401 error and the default-order config. -/
theorem agentEnd_auth_penalty_witness :
    ({ success := some false, error := some "HTTP 401 Unauthorized" } : AgentEndEvent).success
        = some false ∧
    isAuthScopeLike ({ success := some false, error := some "HTTP 401 Unauthorized" }
        : AgentEndEvent).error = true ∧
    lookupKey (agentEndKey sampleConfig none)
        ((agentEnd sampleConfig { success := some false, error := some "HTTP 401 Unauthorized" }
          none none 1000 {}).1).limited =
      some { lastHitAt := 1000, nextAvailableAt := 1000 + (10 + 720) * 60
             reason := some "HTTP 401 Unauthorized", lastProbeAt := none } :=
  ⟨rfl, by decide,
    agentEnd_auth_penalty sampleConfig _ none none 1000 {} rfl (by decide)⟩

/-! ## C10: outbound errors always hit the first model, with no auth penalty -/

/-- C10: when an outbound message matches either classifier, the message_sent
handler overwrites the entry of modelOrder[0] with reason "outbound error
observed" and nextAvailableAt = now + cooldownMinutes * 60 — no 12-hour
penalty even for auth-scope-like content — and leaves every other model's
entry untouched. -/
theorem messageSent_first_model (cfg : PluginConfig) (content : String)
    (sessionKey : Option String) (now : Nat) (st : State) (m₀ : String)
    (h₀ : cfg.modelOrder.head? = some m₀) (h₁ : content ≠ "")
    (h₂ : (isRateLimitLike (some content) || isAuthScopeLike (some content)) = true) :
    lookupKey m₀ ((messageSent cfg content sessionKey now st).1).limited =
      some { lastHitAt := now, nextAvailableAt := now + cfg.cooldownMinutes * 60
             reason := some "outbound error observed", lastProbeAt := none } ∧
    ∀ k, k ≠ m₀ →
      lookupKey k ((messageSent cfg content sessionKey now st).1).limited =
        lookupKey k st.limited := by
  have hhead : cfg.modelOrder.head?.getD "" = m₀ := by rw [h₀]; rfl
  have hhead₂ : cfg.modelOrder.headD "" = m₀ := by rw [List.headD_eq_head?, h₀]; rfl
  have hcond : (!isRateLimitLike (some content) && !isAuthScopeLike (some content)) = false := by
    rcases Bool.or_eq_true_iff.mp h₂ with hr | ha
    · simp [hr]
    · simp [ha]
  constructor
  · simp only [messageSent, h₁, hcond]
    simp only [Bool.false_eq_true, if_false, hhead, hhead₂]
    exact lookupKey_insertKey_self m₀ _ st.limited
  · intro k hk
    simp only [messageSent, h₁, hcond]
    simp only [Bool.false_eq_true, if_false, hhead, hhead₂]
    exact lookupKey_insertKey_ne m₀ k _ st.limited hk

/-- Witness for C10 at a concrete auth-scope-like outbound message: the first
model gets the plain cooldown (no 12-hour penalty) and the second model's
entry is untouched. -/
theorem messageSent_first_model_witness :
    (sampleConfig.modelOrder.head? = some "model-a") ∧
    ("Error: HTTP 401 Unauthorized" : String) ≠ "" ∧
    (isRateLimitLike (some "Error: HTTP 401 Unauthorized") ||
      isAuthScopeLike (some "Error: HTTP 401 Unauthorized")) = true ∧
    lookupKey "model-a"
        ((messageSent sampleConfig "Error: HTTP 401 Unauthorized" none 1000
          { limited := [("model-b", { lastHitAt := 5, nextAvailableAt := 6 })] }).1).limited =
      some { lastHitAt := 1000, nextAvailableAt := 1000 + 10 * 60
             reason := some "outbound error observed", lastProbeAt := none } ∧
    lookupKey "model-b"
        ((messageSent sampleConfig "Error: HTTP 401 Unauthorized" none 1000
          { limited := [("model-b", { lastHitAt := 5, nextAvailableAt := 6 })] }).1).limited =
      lookupKey "model-b"
        ({ limited := [("model-b", { lastHitAt := 5, nextAvailableAt := 6 })] } : State).limited := by
  refine ⟨rfl, by decide, by decide, ?_, ?_⟩
  · exact (messageSent_first_model sampleConfig _ none 1000 _ "model-a" rfl (by decide)
      (by decide)).1
  · exact (messageSent_first_model sampleConfig _ none 1000 _ "model-a" rfl (by decide)
      (by decide)).2 "model-b" (by decide)

/-! ## C8: hot-reload cannot disable the system -/

/-- C8: a reload whose raw configuration sets enabled=false is rejected with
a warning and the active configuration stays in force; otherwise an unchanged
parse is a no-op, and a changed parse replaces the configuration wholesale
and logs the changed field names. -/
theorem reloadConfig_spec (home : String) (current : PluginConfig) (newRaw : Option RawConfig) :
    ((newRaw.getD {}).enabled = some false →
      reloadConfig home current newRaw =
        { config := current, changed := false
          warnings := ["[self-heal] config reload: plugin disabled in new config, ignoring"]
          infos := [] }) ∧
    ((newRaw.getD {}).enabled ≠ some false →
      (configDiff current (parseConfig home newRaw) = [] →
        reloadConfig home current newRaw =
          { config := current, changed := false, warnings := [], infos := [] }) ∧
      (configDiff current (parseConfig home newRaw) ≠ [] →
        reloadConfig home current newRaw =
          { config := parseConfig home newRaw, changed := true, warnings := []
            infos := ["[self-heal] config reloaded: changed " ++
              String.intercalate ", " (configDiff current (parseConfig home newRaw))] })) := by
  refine ⟨fun h => ?_, fun h => ⟨fun hd => ?_, fun hd => ?_⟩⟩
  · simp [reloadConfig, h]
  · simp [reloadConfig, h, hd]
  · simp [reloadConfig, h, hd]

/-- Witness for C8: a hot-reload that sets enabled=false is ignored and the
previous configuration survives. -/
theorem reloadConfig_spec_witness :
    ((some { enabled := some false } : Option RawConfig).getD {}).enabled = some false ∧
    reloadConfig "/home/user" sampleConfig (some { enabled := some false }) =
      { config := sampleConfig, changed := false
        warnings := ["[self-heal] config reload: plugin disabled in new config, ignoring"]
        infos := [] } :=
  ⟨rfl, (reloadConfig_spec "/home/user" sampleConfig (some { enabled := some false })).1 rfl⟩

/-! ## C1 and C9: the guardrail -/

theorem tick_state_eq (cfg : PluginConfig) (inp : TickInputs) (s₀ : State) :
    (tick cfg inp s₀).state =
      (pluginsStep cfg (cronStep cfg inp (whatsappStep cfg inp s₀).state).state).state := rfl

theorem tick_cmds_eq (cfg : PluginConfig) (inp : TickInputs) (s₀ : State) :
    (tick cfg inp s₀).cmds =
      (whatsappStep cfg inp s₀).cmds ++
        (cronStep cfg inp (whatsappStep cfg inp s₀).state).cmds ++
        (pluginsStep cfg (cronStep cfg inp (whatsappStep cfg inp s₀).state).state).cmds := rfl

theorem tick_logs_eq (cfg : PluginConfig) (inp : TickInputs) (s₀ : State) :
    (tick cfg inp s₀).logs =
      (whatsappStep cfg inp s₀).logs ++
        (cronStep cfg inp (whatsappStep cfg inp s₀).state).logs ++
        (pluginsStep cfg (cronStep cfg inp (whatsappStep cfg inp s₀).state).state).logs := rfl

theorem whatsappStep_invalid_cmds (cfg : PluginConfig) (inp : TickInputs) (s : State)
    (h : inp.configValid = false) :
    ∀ c ∈ (whatsappStep cfg inp s).cmds, disruptive c = false := by
  intro c hc
  unfold whatsappStep at hc
  split_ifs at hc <;> simp_all [apply_ite TickResult.cmds, disruptive]

theorem cronJobStep_invalid_cmds (cfg : PluginConfig) (inp : TickInputs) (s : State)
    (j : CronJob) (h : inp.configValid = false) :
    ∀ c ∈ (cronJobStep cfg inp s j).2.1, disruptive c = false := by
  intro c hc
  simp only [cronJobStep, h] at hc
  split_ifs at hc <;> simp_all [disruptive]

theorem cronJobsGo_invalid_cmds (cfg : PluginConfig) (inp : TickInputs)
    (h : inp.configValid = false) :
    ∀ js : List CronJob, ∀ s : State,
      ∀ c ∈ (cronJobsGo cfg inp s js).2.1, disruptive c = false := by
  intro js
  induction js with
  | nil => intro s c hc; simp [cronJobsGo] at hc
  | cons j rest ih =>
      intro s c hc
      simp only [cronJobsGo, List.mem_append] at hc
      rcases hc with hc | hc
      · exact cronJobStep_invalid_cmds cfg inp s j h c hc
      · exact ih _ c hc

theorem cronStep_invalid_cmds (cfg : PluginConfig) (inp : TickInputs) (s : State)
    (h : inp.configValid = false) :
    ∀ c ∈ (cronStep cfg inp s).cmds, disruptive c = false := by
  intro c hc
  unfold cronStep at hc
  split_ifs at hc
  · simp at hc
  · simp only [List.mem_singleton] at hc
    simp [hc, disruptive]
  · simp only [List.mem_cons] at hc
    rcases hc with hc | hc
    · simp [hc, disruptive]
    · exact cronJobsGo_invalid_cmds cfg inp h inp.jobs s c hc

theorem pluginsStep_cmds (cfg : PluginConfig) (s : State) :
    ∀ c ∈ (pluginsStep cfg s).cmds, disruptive c = false := by
  intro c hc
  unfold pluginsStep at hc
  split_ifs at hc <;> simp_all [disruptive]

/-- The C1 invariant, as a helper shared with the frame theorem of C9. -/
theorem tick_invalid_cmds_aux (cfg : PluginConfig) (inp : TickInputs) (s₀ : State)
    (h : inp.configValid = false) :
    ∀ c ∈ (tick cfg inp s₀).cmds, disruptive c = false := by
  intro c hc
  rw [tick_cmds_eq, List.append_assoc, List.mem_append, List.mem_append] at hc
  rcases hc with hc | hc | hc
  · exact whatsappStep_invalid_cmds cfg inp s₀ h c hc
  · exact cronStep_invalid_cmds cfg inp _ h c hc
  · exact pluginsStep_cmds cfg _ c hc

/-- C1: during a monitor tick in which reading or parsing the critical
configuration file fails (the guardrail flag is false), no disruptive
external command — neither the gateway restart nor a cron-disable edit — is
executed; both disruptive sites check the guardrail before acting. -/
theorem tick_invalid_config_blocks_disruptive (cfg : PluginConfig) (inp : TickInputs)
    (s₀ : State) (h : inp.configValid = false) :
    ∀ c ∈ (tick cfg inp s₀).cmds, disruptive c = false :=
  tick_invalid_cmds_aux cfg inp s₀ h

/-- Witness for C1 at a concrete invalid-config tick in which both the
restart trigger and the cron-disable threshold fire. -/
theorem tick_invalid_config_blocks_disruptive_witness :
    sampleTickInputsInvalid.configValid = false ∧
    ∀ c ∈ (tick sampleConfig sampleTickInputsInvalid sampleStreakState).cmds,
      disruptive c = false :=
  ⟨rfl, tick_invalid_config_blocks_disruptive sampleConfig sampleTickInputsInvalid
    sampleStreakState rfl⟩

theorem cronJobStep_whatsapp (cfg : PluginConfig) (inp : TickInputs) (s : State) (j : CronJob) :
    (cronJobStep cfg inp s j).1.whatsapp = s.whatsapp := by
  simp only [cronJobStep]
  split_ifs <;> rfl

theorem cronJobsGo_whatsapp (cfg : PluginConfig) (inp : TickInputs) :
    ∀ js : List CronJob, ∀ s : State, (cronJobsGo cfg inp s js).1.whatsapp = s.whatsapp := by
  intro js
  induction js with
  | nil => intro s; rfl
  | cons j rest ih =>
      intro s
      simp only [cronJobsGo]
      rw [ih, cronJobStep_whatsapp]

theorem cronStep_whatsapp (cfg : PluginConfig) (inp : TickInputs) (s : State) :
    (cronStep cfg inp s).state.whatsapp = s.whatsapp := by
  unfold cronStep
  split_ifs <;> first | rfl | exact cronJobsGo_whatsapp cfg inp inp.jobs s

theorem pluginsStep_state (cfg : PluginConfig) (s : State) :
    (pluginsStep cfg s).state = s := by
  unfold pluginsStep
  split_ifs <;> rfl

/-- The invalid-guardrail restart branch in full: the streak increments, the
timestamps survive, the error is logged and only the status query runs. -/
theorem whatsappStep_invalid_trigger (cfg : PluginConfig) (inp : TickInputs) (s : State)
    (h₁ : inp.configValid = false) (h₂ : cfg.whatsappRestartEnabled = true)
    (h₃ : inp.chanOk = true) (h₄ : inp.chanConnected = false)
    (h₅ : (s.whatsapp.disconnectStreak.getD 0) + 1 ≥ cfg.whatsappDisconnectThreshold)
    (h₆ : (inp.now : Int) - (s.whatsapp.lastRestartAt.getD 0 : Nat) ≥
      (cfg.whatsappMinRestartIntervalSec : Int)) :
    whatsappStep cfg inp s =
      { state :=
          { s with whatsapp :=
              { s.whatsapp with
                  disconnectStreak := some ((s.whatsapp.disconnectStreak.getD 0) + 1) } }
        cmds := [ExtCmd.channelsStatus]
        logs := ["[self-heal] WhatsApp appears disconnected. Restarting gateway.",
          logNotRestarting inp.cfgError] } := by
  unfold whatsappStep
  rw [h₁, h₂, h₃, h₄]
  simp only [Bool.not_true, Bool.false_eq_true, if_false, Bool.not_false, if_true]
  rw [if_pos ⟨h₅, by simpa using h₆⟩]

/-- C9 (amended): when the restart trigger holds but the guardrail fails, no
disruptive command executes, the error is logged, lastRestartAt and
lastSeenConnectedAt are unchanged, and disconnectStreak is incremented by one
(the normal disconnected-observation bookkeeping) rather than reset — so the
trigger condition still re-evaluates on the next tick. -/
theorem tick_guardrail_frame (cfg : PluginConfig) (inp : TickInputs) (s₀ : State)
    (h₁ : inp.configValid = false) (h₂ : cfg.whatsappRestartEnabled = true)
    (h₃ : inp.chanOk = true) (h₄ : inp.chanConnected = false)
    (h₅ : (s₀.whatsapp.disconnectStreak.getD 0) + 1 ≥ cfg.whatsappDisconnectThreshold)
    (h₆ : (inp.now : Int) - (s₀.whatsapp.lastRestartAt.getD 0 : Nat) ≥
      (cfg.whatsappMinRestartIntervalSec : Int)) :
    (∀ c ∈ (tick cfg inp s₀).cmds, disruptive c = false) ∧
    logNotRestarting inp.cfgError ∈ (tick cfg inp s₀).logs ∧
    (tick cfg inp s₀).state.whatsapp.lastRestartAt = s₀.whatsapp.lastRestartAt ∧
    (tick cfg inp s₀).state.whatsapp.lastSeenConnectedAt = s₀.whatsapp.lastSeenConnectedAt ∧
    (tick cfg inp s₀).state.whatsapp.disconnectStreak =
      some ((s₀.whatsapp.disconnectStreak.getD 0) + 1) := by
  have hw := whatsappStep_invalid_trigger cfg inp s₀ h₁ h₂ h₃ h₄ h₅ h₆
  have hstate : (tick cfg inp s₀).state.whatsapp =
      { s₀.whatsapp with
          disconnectStreak := some ((s₀.whatsapp.disconnectStreak.getD 0) + 1) } := by
    rw [tick_state_eq, pluginsStep_state, cronStep_whatsapp, hw]
  refine ⟨tick_invalid_cmds_aux cfg inp s₀ h₁, ?_, ?_, ?_, ?_⟩
  · rw [tick_logs_eq, List.append_assoc, List.mem_append]
    left
    rw [hw]
    simp
  · rw [hstate]
  · rw [hstate]
  · rw [hstate]

/-- Witness for C9 at the concrete threshold scenario. -/
theorem tick_guardrail_frame_witness :
    sampleTickInputsInvalid.configValid = false ∧
    (sampleStreakState.whatsapp.disconnectStreak.getD 0) + 1 ≥
      sampleConfig.whatsappDisconnectThreshold ∧
    (tick sampleConfig sampleTickInputsInvalid sampleStreakState).state.whatsapp.disconnectStreak
      = some 3 :=
  ⟨rfl, by decide,
    (tick_guardrail_frame sampleConfig sampleTickInputsInvalid sampleStreakState rfl rfl rfl rfl
      (by decide) (by decide)).2.2.2.2⟩

/-- Counterexample for C9 as stated: at a concrete tick in which the trigger
holds and the guardrail fails, the disconnect streak is NOT left unchanged —
it increments from 2 to 3 — even though no restart command executes. -/
theorem tick_guardrail_streak_counterexample :
    sampleTickInputsInvalid.configValid = false ∧
    sampleStreakState.whatsapp.disconnectStreak.getD 0 ≥
      sampleConfig.whatsappDisconnectThreshold ∧
    ExtCmd.gatewayRestart ∉ (tick sampleConfig sampleTickInputsInvalid sampleStreakState).cmds ∧
    (tick sampleConfig sampleTickInputsInvalid sampleStreakState).state.whatsapp.disconnectStreak
      ≠ sampleStreakState.whatsapp.disconnectStreak := by
  decide

/-! ## C6: recovery probing -/

theorem probeGo_keys_subset (pe : Bool) (pis : Nat) (dry : Bool) (now : Nat) (head : String)
    (probeOk : String → Bool) :
    ∀ l : List (String × CooldownEntry),
      ((probeGo pe pis dry now head probeOk l).1.map Prod.fst) ⊆ l.map Prod.fst := by
  intro l
  induction l with
  | nil => simp [probeGo]
  | cons p rest ih =>
      obtain ⟨k, e⟩ := p
      simp only [probeGo]
      cases hr : (probeOne pe pis dry now head probeOk k e).1 with
      | none =>
          intro x hx
          exact List.mem_cons_of_mem _ (ih hx)
      | some e₂ =>
          intro x hx
          simp only [List.map_cons, List.mem_cons] at hx ⊢
          rcases hx with hx | hx
          · exact Or.inl hx
          · exact Or.inr (ih hx)

/-- The probe decision for an entry that is due: still cooling down, probing
enabled, interval elapsed, not dry-run. -/
theorem probeOne_due (pe : Bool) (pis now : Nat) (head : String) (probeOk : String → Bool)
    (m : String) (e : CooldownEntry) (hfut : now < e.nextAvailableAt) (hpe : pe = true)
    (hint : (pis : Int) ≤ (now : Int) - ((e.lastProbeAt.getD e.lastHitAt : Nat) : Int)) :
    probeOne pe pis false now head probeOk m e =
      if probeOk m then
        (none, [ExtCmd.modelProbe m],
          ["[self-heal] model " ++ m ++ " recovered early via probe"],
          [HealEvent.modelRecovered m (m == head)])
      else
        (some { e with lastProbeAt := some now }, [ExtCmd.modelProbe m], [], []) := by
  unfold probeOne
  rw [if_neg (Nat.not_le.mpr hfut), hpe]
  simp only [Bool.not_true, Bool.false_eq_true, if_false]
  rw [if_neg (not_lt.mpr hint)]

theorem probeGo_spec (pe : Bool) (pis now : Nat) (head : String) (probeOk : String → Bool)
    (hpe : pe = true) :
    ∀ l : List (String × CooldownEntry), ∀ m e,
      (l.map Prod.fst).Nodup → (m, e) ∈ l →
      now < e.nextAvailableAt →
      (pis : Int) ≤ (now : Int) - ((e.lastProbeAt.getD e.lastHitAt : Nat) : Int) →
      ExtCmd.modelProbe m ∈ (probeGo pe pis false now head probeOk l).2.1 ∧
      (probeOk m = true →
        lookupKey m (probeGo pe pis false now head probeOk l).1 = none ∧
        HealEvent.modelRecovered m (m == head) ∈
          (probeGo pe pis false now head probeOk l).2.2.2) ∧
      (probeOk m = false →
        lookupKey m (probeGo pe pis false now head probeOk l).1 =
          some { e with lastProbeAt := some now }) := by
  intro l
  induction l with
  | nil => intro m e _ hmem; simp at hmem
  | cons p rest ih =>
      obtain ⟨k, e₀⟩ := p
      intro m e hnd hmem hfut hint
      rw [List.map_cons, List.nodup_cons] at hnd
      obtain ⟨hknotin, hndrest⟩ := hnd
      rcases List.mem_cons.mp hmem with hhead | htail
      · obtain ⟨rfl, rfl⟩ : k = m ∧ e₀ = e := by
          have h₁ := congrArg Prod.fst hhead.symm
          have h₂ := congrArg Prod.snd hhead.symm
          exact ⟨h₁, h₂⟩
        have hone := probeOne_due pe pis now head probeOk k e₀ hfut hpe hint
        simp only [probeGo]
        rw [hone]
        cases hok : probeOk k with
        | true =>
            rw [if_pos rfl]
            refine ⟨by simp, fun _ => ⟨?_, by simp⟩, fun hcon => by simp at hcon⟩
            have hnotin :
                k ∉ (probeGo pe pis false now head probeOk rest).1.map Prod.fst :=
              fun hin => hknotin (probeGo_keys_subset pe pis false now head probeOk rest hin)
            simpa using lookupKey_eq_none_of_not_mem k _ hnotin
        | false =>
            rw [if_neg (by simp)]
            refine ⟨by simp, fun hcon => by simp at hcon, fun _ => ?_⟩
            simp [lookupKey]
      · have hmk : m ≠ k := by
          rintro rfl
          exact hknotin (List.mem_map.mpr ⟨(m, e), htail, rfl⟩)
        have ihr := ih m e hndrest htail hfut hint
        simp only [probeGo]
        cases hr : (probeOne pe pis false now head probeOk k e₀).1 with
        | none =>
            refine ⟨by simp [ihr.1], fun hok => ⟨?_, by simp [(ihr.2.1 hok).2]⟩,
              fun hok => by simp [ihr.2.2 hok]⟩
            simp [(ihr.2.1 hok).1]
        | some e₂ =>
            refine ⟨by simp [ihr.1], fun hok => ⟨?_, by simp [(ihr.2.1 hok).2]⟩, fun hok => ?_⟩
            · simp only [lookupKey, if_neg (Ne.symm hmk)]
              exact (ihr.2.1 hok).1
            · simp only [lookupKey, if_neg (Ne.symm hmk)]
              exact ihr.2.2 hok

/-- C6 (amended): a model still in cooldown is probed by the tick's probe
section when probing is enabled, dry-run is off, and the probe interval has
elapsed since the last probe (per the repository tests: since lastHitAt when
no probe is recorded); a successful probe removes the entry and emits
model-recovered tagged isPreferred = (model == modelOrder[0]); a failed probe
sets lastProbeAt = now and keeps the entry. -/
theorem probeStep_spec (cfg : PluginConfig) (pe : Bool) (pis now : Nat)
    (probeOk : String → Bool) (s : State) (m : String) (e : CooldownEntry)
    (hnd : (s.limited.map Prod.fst).Nodup) (hmem : (m, e) ∈ s.limited)
    (hfut : now < e.nextAvailableAt) (hpe : pe = true)
    (hint : (pis : Int) ≤ (now : Int) - ((e.lastProbeAt.getD e.lastHitAt : Nat) : Int)) :
    ExtCmd.modelProbe m ∈ (probeStep cfg pe pis false now probeOk s).cmds ∧
    (probeOk m = true →
      lookupKey m (probeStep cfg pe pis false now probeOk s).state.limited = none ∧
      HealEvent.modelRecovered m (m == cfg.modelOrder.headD "") ∈
        (probeStep cfg pe pis false now probeOk s).events) ∧
    (probeOk m = false →
      lookupKey m (probeStep cfg pe pis false now probeOk s).state.limited =
        some { e with lastProbeAt := some now }) :=
  probeGo_spec pe pis now (cfg.modelOrder.headD "") probeOk hpe s.limited m e hnd hmem hfut hint

/-- Witness for C6's amended theorem: a model hit 400 seconds ago with a
300-second interval is probed; the probe succeeds, the entry is removed and
the recovery event for the preferred model fires. -/
theorem probeStep_spec_witness :
    1000 < sampleProbeReadyEntry.nextAvailableAt ∧
    ExtCmd.modelProbe "model-a" ∈
      (probeStep sampleConfig true 300 false 1000 (fun _ => true) sampleProbeReadyState).cmds ∧
    lookupKey "model-a"
      (probeStep sampleConfig true 300 false 1000 (fun _ => true) sampleProbeReadyState).state.limited
      = none ∧
    HealEvent.modelRecovered "model-a" true ∈
      (probeStep sampleConfig true 300 false 1000 (fun _ => true) sampleProbeReadyState).events := by
  have h := probeStep_spec sampleConfig true 300 1000 (fun _ => true) sampleProbeReadyState
    "model-a" sampleProbeReadyEntry (by decide) (by decide) (by decide) rfl (by decide)
  exact ⟨by decide, h.1, (h.2.1 rfl).1, (h.2.1 rfl).2⟩

/-- Counterexample for C6 as stated: a model in cooldown with a future
nextAvailableAt, probing enabled, dry-run off and NO prior probe recorded is
nevertheless not probed, because it was hit only 10 seconds ago and the
implementation pinned by the repository tests gates on lastHitAt when no
probe is recorded; the tick issues no probe command and the entry stays. -/
theorem probeStep_counterexample :
    sampleProbeEntry.lastProbeAt = none ∧
    1000 < sampleProbeEntry.nextAvailableAt ∧
    (tickModel sampleConfig true 300 false sampleProbeInputs (fun _ => true)
        sampleProbeState).cmds = [ExtCmd.channelsStatus, ExtCmd.cronList] ∧
    lookupKey "model-a"
      (tickModel sampleConfig true 300 false sampleProbeInputs (fun _ => true)
        sampleProbeState).state.limited = some sampleProbeEntry := by
  decide

/-! ## C5: dry-run equivalence -/

theorem tickModel_state_eq (cfg : PluginConfig) (pe : Bool) (pis : Nat) (d : Bool)
    (inp : TickInputs) (probeOk : String → Bool) (s₀ : State) :
    (tickModel cfg pe pis d inp probeOk s₀).state =
      (probeStep cfg pe pis d inp.now probeOk
        (cronStepD cfg d inp (whatsappStepD cfg d inp s₀).state).state).state := rfl

theorem tickModel_cmds_eq (cfg : PluginConfig) (pe : Bool) (pis : Nat) (d : Bool)
    (inp : TickInputs) (probeOk : String → Bool) (s₀ : State) :
    (tickModel cfg pe pis d inp probeOk s₀).cmds =
      (whatsappStepD cfg d inp s₀).cmds ++
        (cronStepD cfg d inp (whatsappStepD cfg d inp s₀).state).cmds ++
        (probeStep cfg pe pis d inp.now probeOk
          (cronStepD cfg d inp (whatsappStepD cfg d inp s₀).state).state).cmds := rfl

theorem tickModel_logs_eq (cfg : PluginConfig) (pe : Bool) (pis : Nat) (d : Bool)
    (inp : TickInputs) (probeOk : String → Bool) (s₀ : State) :
    (tickModel cfg pe pis d inp probeOk s₀).logs =
      (whatsappStepD cfg d inp s₀).logs ++
        (cronStepD cfg d inp (whatsappStepD cfg d inp s₀).state).logs ++
        (probeStep cfg pe pis d inp.now probeOk
          (cronStepD cfg d inp (whatsappStepD cfg d inp s₀).state).state).logs := rfl

theorem probeStep_state_whatsapp (cfg : PluginConfig) (pe : Bool) (pis : Nat) (d : Bool)
    (now : Nat) (probeOk : String → Bool) (s : State) :
    (probeStep cfg pe pis d now probeOk s).state.whatsapp = s.whatsapp := rfl

theorem probeStep_state_cron (cfg : PluginConfig) (pe : Bool) (pis : Nat) (d : Bool)
    (now : Nat) (probeOk : String → Bool) (s : State) :
    (probeStep cfg pe pis d now probeOk s).state.cron = s.cron := rfl

theorem whatsappStepD_state_dry (cfg : PluginConfig) (inp : TickInputs) (s : State) :
    (whatsappStepD cfg true inp s).state = (whatsappStepD cfg false inp s).state := by
  unfold whatsappStepD
  split_ifs <;> first | rfl | simp [apply_ite TickResult.state]

theorem whatsappStepD_dry_cmds (cfg : PluginConfig) (inp : TickInputs) (s : State) :
    ∀ c ∈ (whatsappStepD cfg true inp s).cmds, disruptive c = false := by
  intro c hc
  unfold whatsappStepD at hc
  split_ifs at hc <;> simp_all [apply_ite TickResult.cmds, disruptive]

theorem whatsappStepD_no_disable (cfg : PluginConfig) (d : Bool) (inp : TickInputs)
    (s : State) (id : String) :
    ExtCmd.cronDisable id ∉ (whatsappStepD cfg d inp s).cmds := by
  intro hc
  unfold whatsappStepD at hc
  split_ifs at hc <;> (try simp_all [apply_ite TickResult.cmds]) <;>
    (split at hc <;> simp_all)

theorem whatsappStepD_restart_corr (cfg : PluginConfig) (inp : TickInputs) (s : State)
    (h : ExtCmd.gatewayRestart ∈ (whatsappStepD cfg false inp s).cmds) :
    "[dry-run] would restart gateway" ∈ (whatsappStepD cfg true inp s).logs := by
  unfold whatsappStepD at h ⊢
  split_ifs at h ⊢ <;> (try simp_all [apply_ite TickResult.cmds, apply_ite TickResult.logs]) <;>
    (split at h <;> simp_all)

theorem cronJobStepD_state_dry (cfg : PluginConfig) (inp : TickInputs) (s : State)
    (j : CronJob) :
    (cronJobStepD cfg true inp s j).1 = (cronJobStepD cfg false inp s j).1 := by
  simp only [cronJobStepD]
  split_ifs <;> rfl

theorem cronJobsGoD_state_dry (cfg : PluginConfig) (inp : TickInputs) :
    ∀ js : List CronJob, ∀ s : State,
      (cronJobsGoD cfg true inp s js).1 = (cronJobsGoD cfg false inp s js).1 := by
  intro js
  induction js with
  | nil => intro s; rfl
  | cons j rest ih =>
      intro s
      simp only [cronJobsGoD]
      rw [cronJobStepD_state_dry, ih]

theorem cronStepD_state_dry (cfg : PluginConfig) (inp : TickInputs) (s : State) :
    (cronStepD cfg true inp s).state = (cronStepD cfg false inp s).state := by
  unfold cronStepD
  split_ifs <;> first | rfl | exact cronJobsGoD_state_dry cfg inp inp.jobs s

theorem cronJobStepD_whatsapp (cfg : PluginConfig) (d : Bool) (inp : TickInputs) (s : State)
    (j : CronJob) : (cronJobStepD cfg d inp s j).1.whatsapp = s.whatsapp := by
  simp only [cronJobStepD]
  split_ifs <;> rfl

theorem cronJobsGoD_whatsapp (cfg : PluginConfig) (d : Bool) (inp : TickInputs) :
    ∀ js : List CronJob, ∀ s : State,
      (cronJobsGoD cfg d inp s js).1.whatsapp = s.whatsapp := by
  intro js
  induction js with
  | nil => intro s; rfl
  | cons j rest ih =>
      intro s
      simp only [cronJobsGoD]
      rw [ih, cronJobStepD_whatsapp]

theorem cronStepD_whatsapp (cfg : PluginConfig) (d : Bool) (inp : TickInputs) (s : State) :
    (cronStepD cfg d inp s).state.whatsapp = s.whatsapp := by
  unfold cronStepD
  split_ifs <;> first | rfl | exact cronJobsGoD_whatsapp cfg d inp inp.jobs s

theorem cronJobStepD_dry_cmds (cfg : PluginConfig) (inp : TickInputs) (s : State)
    (j : CronJob) : (cronJobStepD cfg true inp s j).2.1 = [] := by
  simp only [cronJobStepD]
  split_ifs <;> rfl

theorem cronJobsGoD_dry_cmds (cfg : PluginConfig) (inp : TickInputs) :
    ∀ js : List CronJob, ∀ s : State, (cronJobsGoD cfg true inp s js).2.1 = [] := by
  intro js
  induction js with
  | nil => intro s; rfl
  | cons j rest ih =>
      intro s
      simp only [cronJobsGoD]
      rw [cronJobStepD_dry_cmds, ih]
      rfl

theorem cronStepD_dry_cmds (cfg : PluginConfig) (inp : TickInputs) (s : State) :
    ∀ c ∈ (cronStepD cfg true inp s).cmds, disruptive c = false := by
  intro c hc
  unfold cronStepD at hc
  split_ifs at hc
  · simp at hc
  · simp only [List.mem_singleton] at hc
    simp [hc, disruptive]
  · simp only [cronJobsGoD_dry_cmds] at hc
    simp only [List.mem_singleton] at hc
    simp [hc, disruptive]

theorem cronJobStepD_no_restart (cfg : PluginConfig) (d : Bool) (inp : TickInputs)
    (s : State) (j : CronJob) :
    ExtCmd.gatewayRestart ∉ (cronJobStepD cfg d inp s j).2.1 := by
  intro hc
  simp only [cronJobStepD] at hc
  split_ifs at hc <;> simp_all

theorem cronJobsGoD_no_restart (cfg : PluginConfig) (d : Bool) (inp : TickInputs) :
    ∀ js : List CronJob, ∀ s : State,
      ExtCmd.gatewayRestart ∉ (cronJobsGoD cfg d inp s js).2.1 := by
  intro js
  induction js with
  | nil => intro s hc; simp [cronJobsGoD] at hc
  | cons j rest ih =>
      intro s hc
      simp only [cronJobsGoD, List.mem_append] at hc
      rcases hc with hc | hc
      · exact cronJobStepD_no_restart cfg d inp s j hc
      · exact ih _ hc

theorem cronStepD_no_restart (cfg : PluginConfig) (d : Bool) (inp : TickInputs) (s : State) :
    ExtCmd.gatewayRestart ∉ (cronStepD cfg d inp s).cmds := by
  intro hc
  unfold cronStepD at hc
  split_ifs at hc
  · simp at hc
  · simp at hc
  · simp only [List.mem_cons] at hc
    rcases hc with hc | hc
    · cases hc
    · exact cronJobsGoD_no_restart cfg d inp inp.jobs s hc

theorem probeOne_cmds_probe (pe : Bool) (pis : Nat) (d : Bool) (now : Nat) (head : String)
    (probeOk : String → Bool) (m : String) (e : CooldownEntry) :
    ∀ c ∈ (probeOne pe pis d now head probeOk m e).2.1, c = ExtCmd.modelProbe m := by
  intro c hc
  unfold probeOne at hc
  split_ifs at hc <;> simp_all

theorem probeGo_cmds_probe (pe : Bool) (pis : Nat) (d : Bool) (now : Nat) (head : String)
    (probeOk : String → Bool) :
    ∀ l : List (String × CooldownEntry), ∀ c ∈ (probeGo pe pis d now head probeOk l).2.1,
      ∃ x, c = ExtCmd.modelProbe x := by
  intro l
  induction l with
  | nil => intro c hc; simp [probeGo] at hc
  | cons p rest ih =>
      obtain ⟨k, e⟩ := p
      intro c hc
      simp only [probeGo, List.mem_append] at hc
      rcases hc with hc | hc
      · exact ⟨k, probeOne_cmds_probe pe pis d now head probeOk k e c hc⟩
      · exact ih c hc

theorem probeOne_dry_cmds (pe : Bool) (pis : Nat) (now : Nat) (head : String)
    (probeOk : String → Bool) (m : String) (e : CooldownEntry) :
    (probeOne pe pis true now head probeOk m e).2.1 = [] := by
  unfold probeOne
  split_ifs <;> first | rfl | simp_all

theorem probeGo_dry_cmds (pe : Bool) (pis : Nat) (now : Nat) (head : String)
    (probeOk : String → Bool) :
    ∀ l : List (String × CooldownEntry), (probeGo pe pis true now head probeOk l).2.1 = [] := by
  intro l
  induction l with
  | nil => rfl
  | cons p rest ih =>
      obtain ⟨k, e⟩ := p
      simp only [probeGo]
      rw [probeOne_dry_cmds, ih]
      rfl

theorem cronJobStepD_disable_corr (cfg : PluginConfig) (inp : TickInputs) (s : State)
    (j : CronJob) (id : String)
    (h : ExtCmd.cronDisable id ∈ (cronJobStepD cfg false inp s j).2.1) :
    j.id = id ∧
      ("[dry-run] would disable cron " ++ j.name) ∈ (cronJobStepD cfg true inp s j).2.2 := by
  simp only [cronJobStepD] at h ⊢
  split_ifs at h ⊢ <;> simp_all

theorem cronJobsGoD_disable_corr (cfg : PluginConfig) (inp : TickInputs) :
    ∀ js : List CronJob, ∀ s : State, ∀ id : String,
      ExtCmd.cronDisable id ∈ (cronJobsGoD cfg false inp s js).2.1 →
      ∃ j ∈ js, j.id = id ∧
        ("[dry-run] would disable cron " ++ j.name) ∈ (cronJobsGoD cfg true inp s js).2.2 := by
  intro js
  induction js with
  | nil => intro s id h; simp [cronJobsGoD] at h
  | cons j rest ih =>
      intro s id h
      simp only [cronJobsGoD, List.mem_append] at h ⊢
      rcases h with h | h
      · obtain ⟨hid, hlog⟩ := cronJobStepD_disable_corr cfg inp s j id h
        exact ⟨j, List.mem_cons_self j rest, hid, Or.inl hlog⟩
      · have h₂ : ExtCmd.cronDisable id ∈
            (cronJobsGoD cfg false inp (cronJobStepD cfg true inp s j).1 rest).2.1 := by
          rw [cronJobStepD_state_dry]
          exact h
        obtain ⟨j₂, hj₂, hid, hlog⟩ := ih (cronJobStepD cfg true inp s j).1 id h₂
        exact ⟨j₂, List.mem_cons_of_mem j hj₂, hid, Or.inr hlog⟩

theorem cronStepD_disable_corr (cfg : PluginConfig) (inp : TickInputs) (s : State)
    (id : String) (h : ExtCmd.cronDisable id ∈ (cronStepD cfg false inp s).cmds) :
    ∃ j ∈ inp.jobs, j.id = id ∧
      ("[dry-run] would disable cron " ++ j.name) ∈ (cronStepD cfg true inp s).logs := by
  unfold cronStepD at h ⊢
  split_ifs at h ⊢
  · simp at h
  · simp at h
  · simp only [List.mem_cons] at h
    rcases h with h | h
    · cases h
    · exact cronJobsGoD_disable_corr cfg inp inp.jobs s id h

/-- C5: against the spec-modelled tick, dry-run performs the identical
whatsapp and cron bookkeeping as the real path (lastRestartAt and
disconnectStreak reset, failCount reset, lastIssueCreatedAt updated
identically), while no disruptive command is executed under dry-run and each
disruptive action the real path executes appears as a "would do X" intent log
under dry-run. -/
theorem tickModel_dryRun_equiv (cfg : PluginConfig) (pe : Bool) (pis : Nat)
    (inp : TickInputs) (probeOk : String → Bool) (s₀ : State) :
    (tickModel cfg pe pis true inp probeOk s₀).state.whatsapp =
      (tickModel cfg pe pis false inp probeOk s₀).state.whatsapp ∧
    (tickModel cfg pe pis true inp probeOk s₀).state.cron =
      (tickModel cfg pe pis false inp probeOk s₀).state.cron ∧
    (∀ c ∈ (tickModel cfg pe pis true inp probeOk s₀).cmds, disruptive c = false) ∧
    (ExtCmd.gatewayRestart ∈ (tickModel cfg pe pis false inp probeOk s₀).cmds →
      "[dry-run] would restart gateway" ∈ (tickModel cfg pe pis true inp probeOk s₀).logs) ∧
    (∀ id, ExtCmd.cronDisable id ∈ (tickModel cfg pe pis false inp probeOk s₀).cmds →
      ∃ j ∈ inp.jobs, j.id = id ∧
        ("[dry-run] would disable cron " ++ j.name) ∈
          (tickModel cfg pe pis true inp probeOk s₀).logs) := by
  have hpre : (cronStepD cfg true inp (whatsappStepD cfg true inp s₀).state).state =
      (cronStepD cfg false inp (whatsappStepD cfg false inp s₀).state).state := by
    rw [whatsappStepD_state_dry, cronStepD_state_dry]
  refine ⟨?_, ?_, ?_, ?_, ?_⟩
  · rw [tickModel_state_eq, tickModel_state_eq, probeStep_state_whatsapp,
      probeStep_state_whatsapp, hpre]
  · rw [tickModel_state_eq, tickModel_state_eq, probeStep_state_cron,
      probeStep_state_cron, hpre]
  · intro c hc
    rw [tickModel_cmds_eq, List.append_assoc, List.mem_append, List.mem_append] at hc
    rcases hc with hc | hc | hc
    · exact whatsappStepD_dry_cmds cfg inp s₀ c hc
    · exact cronStepD_dry_cmds cfg inp _ c hc
    · obtain ⟨x, rfl⟩ := probeGo_cmds_probe pe pis true inp.now _ probeOk _ c hc
      rfl
  · intro h
    rw [tickModel_cmds_eq, List.append_assoc, List.mem_append, List.mem_append] at h
    rcases h with h | h | h
    · rw [tickModel_logs_eq, List.append_assoc, List.mem_append]
      exact Or.inl (whatsappStepD_restart_corr cfg inp s₀ h)
    · exact absurd h (cronStepD_no_restart cfg false inp _)
    · obtain ⟨x, hx⟩ := probeGo_cmds_probe pe pis false inp.now _ probeOk _ _ h
      cases hx
  · intro id h
    rw [tickModel_cmds_eq, List.append_assoc, List.mem_append, List.mem_append] at h
    rcases h with h | h | h
    · exact absurd h (whatsappStepD_no_disable cfg false inp s₀ id)
    · obtain ⟨j, hj, hid, hlog⟩ := cronStepD_disable_corr cfg inp _ id h
      refine ⟨j, hj, hid, ?_⟩
      rw [tickModel_logs_eq, List.append_assoc, List.mem_append]
      right
      rw [List.mem_append]
      left
      rw [← whatsappStepD_state_dry] at hlog
      exact hlog
    · obtain ⟨x, hx⟩ := probeGo_cmds_probe pe pis false inp.now _ probeOk _ _ h
      cases hx

/-- Witness for C5: a concrete valid-config tick whose real path restarts the
gateway; the dry-run path logs the intent instead, never issues a disruptive
command, and ends with the same whatsapp bookkeeping. -/
theorem tickModel_dryRun_equiv_witness :
    ExtCmd.gatewayRestart ∈
      (tickModel sampleConfig true 300 false sampleTickInputsValid (fun _ => true)
        sampleStreakState).cmds ∧
    "[dry-run] would restart gateway" ∈
      (tickModel sampleConfig true 300 true sampleTickInputsValid (fun _ => true)
        sampleStreakState).logs ∧
    (tickModel sampleConfig true 300 true sampleTickInputsValid (fun _ => true)
        sampleStreakState).state.whatsapp =
      (tickModel sampleConfig true 300 false sampleTickInputsValid (fun _ => true)
        sampleStreakState).state.whatsapp :=
  ⟨by decide,
    (tickModel_dryRun_equiv sampleConfig true 300 sampleTickInputsValid (fun _ => true)
      sampleStreakState).2.2.2.1 (by decide),
    (tickModel_dryRun_equiv sampleConfig true 300 sampleTickInputsValid (fun _ => true)
      sampleStreakState).1⟩

end OpenclawSelfHeal
